import Mathlib

/-! libdce: remote-call marshalling layer and session lifecycle

A shallow embedding of `src/libdce.c`.

* Pointers and opaque handles are machine addresses (`Nat`), `NULL` is `0`.
* The process-wide globals `MmRpcHandle` and `count` form the `Session` record that every
  operation receives and returns; the mutex only serialises calls and is not represented.
* The external collaborators (MmRpc channel, memplugin allocator) are environments: every
  operation receives the outcome of each external call it may perform, and returns the list
  of external calls it performed, in program order (`Effect`).
* C `int` values (the counter `count`, the buffer counts of `process`) are modelled as
  unbounded `Int`: wrap-around is not modelled.
* Arrays filled element by element (`fxnCtx.params`, `xltAry`) are the list of the element
  assignments made, each with the array index it goes to. The array `xltAry` of `process`
  has `MAX_TOTAl_BUF` elements; a result of `process` says whether the assignments stayed
  inside it (`in_bounds`), and beyond that the behaviour of the program is undefined.
* The target is 32-bit, as the casts of pointers to `int32_t` in the code require:
  `unsigned int` and `size_t` values are taken modulo 2^32.
-/

set_option linter.unusedVariables false

namespace Libdce

/-- Machine addresses: pointers and opaque handles. -/
abbrev Ptr := Nat

/-- The null pointer. -/
def NULL : Ptr := 0

/-! ## Constants declared in headers that are not part of `src/` -/

/-- Modelled from the spec: status code "success" of the numeric taxonomy (enum
`dce_error_status`, declared in libdce.h which is not under src). Only the fact that the
success code differs from the failure codes is used. -/
def DCE_EOK : Int := 0

/-- Modelled from the spec: status code "out-of-memory" (enum `dce_error_status`). -/
def DCE_EOUT_OF_MEMORY : Int := -2

/-- Modelled from the spec: status code "channel-create-failed" (enum `dce_error_status`). -/
def DCE_EIPC_CREATE_FAIL : Int := -4

/-- Modelled from the spec: status code "channel-call-failed" (enum `dce_error_status`). -/
def DCE_EIPC_CALL_FAIL : Int := -5

/-- Modelled from the spec: status code "invalid-input" (enum `dce_error_status`). -/
def DCE_EINVALID_INPUT : Int := -6

/-- Modelled from the spec: function identifiers of the call shapes (enum `dce_rpc_call`,
declared in dce_rpc.h which is not under src). -/
inductive dce_rpc_call
  | DCE_RPC_ENGINE_OPEN
  | DCE_RPC_ENGINE_CLOSE
  | DCE_RPC_CODEC_CREATE
  | DCE_RPC_CODEC_CONTROL
  | DCE_RPC_CODEC_GET_VERSION
  | DCE_RPC_CODEC_PROCESS
  | DCE_RPC_CODEC_DELETE
  deriving DecidableEq

/-- Modelled from the spec: the codec family tag (enum `dce_codec_type`): decoder-class or
encoder-class. -/
inductive dce_codec_type
  | OMAP_DCE_VIDENC2
  | OMAP_DCE_VIDDEC3
  deriving DecidableEq

/-- Modelled from the spec: sizes and field offsets of the externally defined structs
(`sizeof`, `offsetof`), the integer value of each family tag and the capacity
`MAX_TOTAl_BUF` of the translation array of `process`. The declarations live in headers
that are not under src, so they are parameters of the development. -/
structure Layout where
  sizeof_dce_engine_open : Nat
  sizeof_dce_engine_close : Nat
  sizeof_dce_codec_create : Nat
  sizeof_dce_codec_control : Nat
  sizeof_dce_codec_get_version : Nat
  sizeof_dce_codec_delete : Nat
  sizeof_XDM2_BufDesc : Nat
  sizeof_IVIDEO2_BufDesc : Nat
  sizeof_VIDDEC3_InArgs : Nat
  sizeof_VIDDEC3_OutArgs : Nat
  sizeof_VIDENC2_InArgs : Nat
  sizeof_VIDENC2_OutArgs : Nat
  sizeof_XDM2_SingleBufDesc : Nat
  /-- Offset of `engine` in `dce_codec_create`. -/
  create_engine : Nat
  /-- Offset of `codec_handle` in `dce_codec_create`. -/
  create_codec_handle : Nat
  /-- Offset of `static_params` in `dce_codec_create`. -/
  create_static_params : Nat
  /-- Offset of `codec_handle` in `dce_codec_control`. -/
  control_codec_handle : Nat
  /-- Offset of `dyn_params` in `dce_codec_control`. -/
  control_dyn_params : Nat
  /-- Offset of `status` in `dce_codec_control`. -/
  control_status : Nat
  /-- Offset of `codec_handle` in `dce_codec_get_version`. -/
  get_version_codec_handle : Nat
  /-- Offset of `dyn_params` in `dce_codec_get_version`. -/
  get_version_dyn_params : Nat
  /-- Offset of `status` in `dce_codec_get_version`. -/
  get_version_status : Nat
  /-- Offset of `version` in `dce_codec_get_version`. -/
  get_version_version : Nat
  /-- Offset of `data.buf` in `IVIDDEC3_Status`. -/
  IVIDDEC3_Status_data_buf : Nat
  /-- Offset of `numBufs` in `XDM2_BufDesc`. -/
  XDM2_BufDesc_numBufs : Nat
  /-- Offset of `descs` in `XDM2_BufDesc`. -/
  XDM2_BufDesc_descs : Nat
  /-- Offset of `numPlanes` in `IVIDEO2_BufDesc`. -/
  IVIDEO2_BufDesc_numPlanes : Nat
  /-- Offset of `planeDesc` in `IVIDEO2_BufDesc`. -/
  IVIDEO2_BufDesc_planeDesc : Nat
  /-- Offset of `buf` in `XDM2_SingleBufDesc`. -/
  XDM2_SingleBufDesc_buf : Nat
  /-- Integer value of a family tag. -/
  codec_id_value : dce_codec_type → Int
  MAX_TOTAl_BUF : Nat

/-- The caller-visible memory: `ptr a` is the pointer-sized word stored at address `a`,
`int a` the `XDAS_Int32` stored at address `a`. -/
structure Memory where
  ptr : Ptr → Ptr
  int : Ptr → Int

/-- A pointer-sized store `*(void **)a = v`. -/
def Memory.store (m : Memory) (a : Ptr) (v : Ptr) : Memory :=
  { m with ptr := fun x => if x = a then v else m.ptr x }

/-! ## MmRpc call packages -/

/-- One argument of a call package (`MmRpc_Param`): a pointer with size and backing handle,
or an inline scalar. -/
inductive MmRpc_Param
  | Ptr (size : Int) (addr : Ptr) (handle : Ptr)
  | Scalar (size : Int) (data : Int)
  deriving DecidableEq

/-- A translation entry (`MmRpc_Xlt`). `offset` is kept as the unsigned 32-bit value that
`MmRpc_OFFSET` yields. -/
structure MmRpc_Xlt where
  index : Int
  offset : Int
  base : Ptr
  handle : Ptr
  deriving DecidableEq

/-- The call package (`MmRpc_FxnCtx`). The arrays `params` and `xltAry` are represented by
the element assignments the code performs, in program order, each as (array index, value);
a `NULL` translation array has no assignment. -/
structure MmRpc_FxnCtx where
  fxn_id : dce_rpc_call
  num_params : Int
  num_xlts : Int
  params : List (Nat × MmRpc_Param)
  xltAry : List (Nat × MmRpc_Xlt)
  deriving DecidableEq

/-- The cast `(int32_t)p` of an address: the low 32 bits read as a signed integer. -/
def int32_t_cast (p : Ptr) : Int := ((p : Int) + 2147483648) % 4294967296 - 2147483648

/-- The cast `(unsigned int)x`. -/
def unsigned_int_cast (x : Int) : Int := x % 4294967296

/-- Modelled from the spec: the `MmRpc_OFFSET(base, field)` macro of MmRpc.h (not under
src): "offset = (address of field) − (base of containing allocation)", computed on the
operands cast to `unsigned int`. -/
def MmRpc_OFFSET (base field : Int) : Int :=
  (unsigned_int_cast field - unsigned_int_cast base) % 4294967296

/-- The cast `(size_t *)addr` of a 32-bit integer back to an address. -/
def size_t_ptr_cast (addr : Int) : Ptr := (unsigned_int_cast addr).toNat

/-- `Fill_MmRpc_fxnCtx`: sets the four header fields; the argument array is left to the
argument-fill operations. -/
def Fill_MmRpc_fxnCtx (fxn_id : dce_rpc_call) (num_params num_xlts : Int) : MmRpc_FxnCtx :=
  { fxn_id := fxn_id, num_params := num_params, num_xlts := num_xlts, params := [], xltAry := [] }

/-- `Fill_MmRpc_fxnCtx_Ptr_Params`. -/
def Fill_MmRpc_fxnCtx_Ptr_Params (size : Int) (addr handle : Ptr) : MmRpc_Param :=
  MmRpc_Param.Ptr size addr handle

/-- The cast `(size_t)x` of an `int` on the 32-bit target: the value modulo 2^32. -/
def size_t_cast (x : Int) : Int := x % 4294967296

/-- `Fill_MmRpc_fxnCtx_Scalar_Params`: `param.scalar.data = (size_t)data`. -/
def Fill_MmRpc_fxnCtx_Scalar_Params (size : Int) (data : Int) : MmRpc_Param :=
  MmRpc_Param.Scalar size (size_t_cast data)

/-- `Fill_MmRpc_fxnCtx_Xlt_Array`: `index`, `offset = MmRpc_OFFSET(base, addr)`,
`base = *(size_t *)addr`, `handle`. -/
def Fill_MmRpc_fxnCtx_Xlt_Array (mem : Memory) (index : Int) (base addr : Int) (handle : Ptr) :
    MmRpc_Xlt :=
  { index := index
    offset := MmRpc_OFFSET base addr
    base := mem.ptr (size_t_ptr_cast addr)
    handle := handle }

/-- Assignment `fxnCtx.params[i] = p`. -/
def MmRpc_FxnCtx.setParam (c : MmRpc_FxnCtx) (i : Nat) (p : MmRpc_Param) : MmRpc_FxnCtx :=
  { c with params := c.params ++ [(i, p)] }

/-- Assignment `fxnCtx.xltAry[i] = x`. -/
def MmRpc_FxnCtx.setXlt (c : MmRpc_FxnCtx) (i : Nat) (x : MmRpc_Xlt) : MmRpc_FxnCtx :=
  { c with xltAry := c.xltAry ++ [(i, x)] }

/-! ## External calls -/

/-- The external calls an operation performs, in program order. -/
inductive Effect
  | MmRpc_create
  | MmRpc_delete (handle : Ptr)
  | MmRpc_call (handle : Ptr) (fxnCtx : MmRpc_FxnCtx)
  | memplugin_alloc (sz : Int) (ret : Ptr)
  | memplugin_free (ptr : Ptr)
  deriving DecidableEq

/-- Modelled from the spec: outcome of the external `MmRpc_create`, per the channel
interface "create(name, options) -> handle | error": the returned status and, when the
status is the success code `DCE_EOK`, the handle stored through the handle pointer; with
an error status no handle is delivered and the handle variable keeps its value. -/
structure MmRpc_create_outcome where
  status : Int
  handle : Ptr
  deriving DecidableEq

/-- Outcome of the external `MmRpc_call`: the returned status and the value stored through
the result pointer. The call succeeded when `status` equals `DCE_EOK`. -/
structure MmRpc_call_outcome where
  status : Int
  fxnRet : Int
  deriving DecidableEq

/-! ## The assertion macros of dce_priv.h -/

/-- Modelled from the spec: the `_ASSERT(cond, code)` macro of dce_priv.h (not under src),
per "errors are returned" and the "single exit discipline": when `cond` holds the body goes
on with `next`; otherwise `eError = code` and control jumps to the `EXIT` label, `exit`
being the state in which the label is reached. -/
def _ASSERT {α : Type} (cond : Prop) [Decidable cond] (exit next : α) : α :=
  if cond then next else exit

/-- Modelled from the spec: the `_ASSERT_AND_EXECUTE(cond, code, expr)` macro of dce_priv.h
(not under src): as `_ASSERT`, with `expr` run before the jump; `exit` is the state in
which the `EXIT` label is reached after `expr`. -/
def _ASSERT_AND_EXECUTE {α : Type} (cond : Prop) [Decidable cond] (exit next : α) : α :=
  if cond then next else exit

/-! ## Session manager -/

/-- The process-wide session state: the globals `MmRpcHandle` and `count`. -/
structure Session where
  MmRpcHandle : Ptr
  count : Int
  deriving DecidableEq

/-- The initial values of the globals: `MmRpcHandle = NULL`, `count = 0`. -/
def Session.initial : Session := { MmRpcHandle := NULL, count := 0 }

/-- Result of `dce_init`. -/
structure dce_init_result where
  eError : Int
  session : Session
  log : List Effect
  deriving DecidableEq

/-- `dce_init`. -/
def dce_init (s : Session) (create : MmRpc_create_outcome) : dce_init_result :=
  -- count++
  let count := s.count + 1
  -- _ASSERT(count == 1, DCE_EOK)
  _ASSERT (count = 1)
    { eError := DCE_EOK, session := { s with count := count }, log := [] } <|
  -- eError = MmRpc_create(DCE_DEVICE_NAME, &args, &MmRpcHandle)
  let eError := create.status
  let MmRpcHandle := if create.status = DCE_EOK then create.handle else s.MmRpcHandle
  -- _ASSERT_AND_EXECUTE(eError == DCE_EOK, DCE_EIPC_CREATE_FAIL, count--)
  _ASSERT_AND_EXECUTE (eError = DCE_EOK)
    { eError := DCE_EIPC_CREATE_FAIL, session := { MmRpcHandle := MmRpcHandle, count := count - 1 }
      log := [Effect.MmRpc_create] }
    { eError := eError, session := { MmRpcHandle := MmRpcHandle, count := count }
      log := [Effect.MmRpc_create] }

/-- Result of `dce_deinit`. -/
structure dce_deinit_result where
  session : Session
  log : List Effect
  deriving DecidableEq

/-- `dce_deinit`. -/
def dce_deinit (s : Session) : dce_deinit_result :=
  -- count--
  let count := s.count - 1
  if count > 0 then
    { session := { s with count := count }, log := [] }
  else
    { session := { MmRpcHandle := NULL, count := count }
      log := if s.MmRpcHandle ≠ NULL then [Effect.MmRpc_delete s.MmRpcHandle] else [] }

/-! ## Engine open / close -/

/-- Environment of one `Engine_open` call: the outcome of `MmRpc_create` (consulted only if
`dce_init` calls it), the address returned by `memplugin_alloc`, the outcome of
`MmRpc_call`, and the `eng_handle` and `error_code` fields of the message struct as the
call leaves them. -/
structure Engine_open_env where
  create : MmRpc_create_outcome
  alloc : Ptr
  call : MmRpc_call_outcome
  eng_handle : Ptr
  error_code : Int
  deriving DecidableEq

/-- Result of `Engine_open`: the returned handle, the value written to `ec[0]` (if any),
the session afterwards and the external calls performed. -/
structure Engine_open_result where
  eng_handle : Ptr
  ec : Option Int
  session : Session
  log : List Effect
  deriving DecidableEq

/-- `Engine_open`. The name is `none` for a null pointer and `some str` for a pointer to the
string `str`; `attrs` is unused by the code. -/
def Engine_open (L : Layout) (s : Session) (name : Option String) (env : Engine_open_env) :
    Engine_open_result :=
  -- _ASSERT(name != '\0', DCE_EINVALID_INPUT): a comparison of the pointer with 0;
  -- EXIT: memplugin_free(engine_open_msg) with engine_open_msg == NULL
  _ASSERT (name.isSome = true)
    { eng_handle := NULL, ec := none, session := s, log := [Effect.memplugin_free NULL] } <|
  -- _ASSERT_AND_EXECUTE(dce_init() == DCE_EOK, DCE_EIPC_CREATE_FAIL, dce_deinit())
  let i := dce_init s env.create
  _ASSERT_AND_EXECUTE (i.eError = DCE_EOK)
    (let d := dce_deinit i.session
     { eng_handle := NULL, ec := none, session := d.session
       log := i.log ++ d.log ++ [Effect.memplugin_free NULL] }) <|
  -- engine_open_msg = memplugin_alloc(sizeof(dce_engine_open), 0, TILER_1D_BUFFER)
  let engine_open_msg := env.alloc
  let logAlloc := i.log ++ [Effect.memplugin_alloc L.sizeof_dce_engine_open engine_open_msg]
  -- _ASSERT_AND_EXECUTE(engine_open_msg != NULL, DCE_EOUT_OF_MEMORY, eng_handle = NULL)
  _ASSERT_AND_EXECUTE (engine_open_msg ≠ NULL)
    { eng_handle := NULL, ec := none, session := i.session
      log := logAlloc ++ [Effect.memplugin_free engine_open_msg] } <|
  -- Fill_MmRpc_fxnCtx(&fxnCtx, DCE_RPC_ENGINE_OPEN, 1, 0, NULL)
  let fxnCtx := (Fill_MmRpc_fxnCtx dce_rpc_call.DCE_RPC_ENGINE_OPEN 1 0).setParam 0
    (Fill_MmRpc_fxnCtx_Ptr_Params L.sizeof_dce_engine_open engine_open_msg NULL)
  -- eError = MmRpc_call(MmRpcHandle, &fxnCtx, &fxnRet)
  let eError := env.call.status
  let logCall := logAlloc ++ [Effect.MmRpc_call i.session.MmRpcHandle fxnCtx]
  -- _ASSERT_AND_EXECUTE(eError == DCE_EOK, DCE_EIPC_CALL_FAIL, eng_handle = NULL)
  _ASSERT_AND_EXECUTE (eError = DCE_EOK)
    { eng_handle := NULL, ec := none, session := i.session
      log := logCall ++ [Effect.memplugin_free engine_open_msg] }
    -- eng_handle = engine_open_msg->eng_handle; ec[0] = engine_open_msg->error_code;
    -- EXIT: memplugin_free(engine_open_msg, TILER_1D_BUFFER)
    { eng_handle := env.eng_handle, ec := some env.error_code, session := i.session
      log := logCall ++ [Effect.memplugin_free engine_open_msg] }

/-- Environment of one `Engine_close` call. -/
structure Engine_close_env where
  alloc : Ptr
  call : MmRpc_call_outcome
  deriving DecidableEq

/-- Result of `Engine_close`. -/
structure Engine_close_result where
  session : Session
  log : List Effect
  deriving DecidableEq

/-- `Engine_close`. -/
def Engine_close (L : Layout) (s : Session) (engine : Ptr) (env : Engine_close_env) :
    Engine_close_result :=
  -- the part of the body before the EXIT label: the external calls made and the value of
  -- engine_close_msg at the label
  let body : List Effect × Ptr :=
    -- _ASSERT(engine != NULL, DCE_EINVALID_INPUT)
    _ASSERT (engine ≠ NULL) ([], NULL) <|
    -- engine_close_msg = memplugin_alloc(sizeof(dce_engine_close), 0, TILER_1D_BUFFER)
    let engine_close_msg := env.alloc
    let logAlloc := [Effect.memplugin_alloc L.sizeof_dce_engine_close engine_close_msg]
    -- _ASSERT(engine_close_msg != NULL, DCE_EOUT_OF_MEMORY)
    _ASSERT (engine_close_msg ≠ NULL) (logAlloc, engine_close_msg) <|
    -- Fill_MmRpc_fxnCtx(&fxnCtx, DCE_RPC_ENGINE_CLOSE, 1, 0, NULL)
    let fxnCtx := (Fill_MmRpc_fxnCtx dce_rpc_call.DCE_RPC_ENGINE_CLOSE 1 0).setParam 0
      (Fill_MmRpc_fxnCtx_Ptr_Params L.sizeof_dce_engine_close engine_close_msg NULL)
    -- eError = MmRpc_call(MmRpcHandle, &fxnCtx, &fxnRet)
    let eError := env.call.status
    let logCall := logAlloc ++ [Effect.MmRpc_call s.MmRpcHandle fxnCtx]
    -- _ASSERT(eError == DCE_EOK, DCE_EIPC_CALL_FAIL)
    _ASSERT (eError = DCE_EOK) (logCall, engine_close_msg) (logCall, engine_close_msg)
  -- EXIT: memplugin_free(engine_close_msg, TILER_1D_BUFFER); dce_deinit()
  let d := dce_deinit s
  { session := d.session, log := body.1 ++ [Effect.memplugin_free body.2] ++ d.log }

/-! ## Codec-instance shapes: create, control, get_version, delete -/

/-- Environment of one `create` call: the address returned by `memplugin_alloc`, the outcome
of `MmRpc_call` and the `codec_handle` field of the message struct as the call leaves it. -/
structure create_env where
  alloc : Ptr
  call : MmRpc_call_outcome
  codec_handle : Ptr
  deriving DecidableEq

/-- Result of `create`. -/
structure create_result where
  codec_handle : Ptr
  session : Session
  log : List Effect
  deriving DecidableEq

/-- State at the `EXIT` label of a bundled-message operation: the external calls made so
far, the local message pointer and the local that is returned. -/
structure at_EXIT (α : Type) where
  log : List Effect
  msg : Ptr
  ret : α

/-- `create`. -/
def create (L : Layout) (mem : Memory) (s : Session) (engine : Ptr) (name : Option String)
    (params : Ptr) (codec_id : dce_codec_type) (env : create_env) : create_result :=
  let body : at_EXIT Ptr :=
    -- _ASSERT(name != '\0', DCE_EINVALID_INPUT): a comparison of the pointer with 0
    _ASSERT (name.isSome = true) { log := [], msg := NULL, ret := NULL } <|
    -- _ASSERT(engine != NULL, DCE_EINVALID_INPUT)
    _ASSERT (engine ≠ NULL) { log := [], msg := NULL, ret := NULL } <|
    -- _ASSERT(params != NULL, DCE_EINVALID_INPUT)
    _ASSERT (params ≠ NULL) { log := [], msg := NULL, ret := NULL } <|
    -- codec_create_msg = memplugin_alloc(sizeof(dce_codec_create), 0, TILER_1D_BUFFER)
    let codec_create_msg := env.alloc
    let logAlloc := [Effect.memplugin_alloc L.sizeof_dce_codec_create codec_create_msg]
    -- _ASSERT_AND_EXECUTE(codec_create_msg != NULL, DCE_EOUT_OF_MEMORY, codec_handle = NULL)
    _ASSERT_AND_EXECUTE (codec_create_msg ≠ NULL)
      { log := logAlloc, msg := codec_create_msg, ret := NULL } <|
    -- the pointer-sized fields of the message struct, in assignment order:
    -- engine, codec_handle = NULL, static_params = params
    let mem1 := ((mem.store (codec_create_msg + L.create_engine) engine).store
      (codec_create_msg + L.create_codec_handle) NULL).store
      (codec_create_msg + L.create_static_params) params
    -- Fill_MmRpc_fxnCtx(&fxnCtx, DCE_RPC_CODEC_CREATE, 1, 1, &xltAry)
    let fxnCtx := ((Fill_MmRpc_fxnCtx dce_rpc_call.DCE_RPC_CODEC_CREATE 1 1).setParam 0
      (Fill_MmRpc_fxnCtx_Ptr_Params L.sizeof_dce_codec_create codec_create_msg NULL)).setXlt 0
      (Fill_MmRpc_fxnCtx_Xlt_Array mem1 0 (int32_t_cast codec_create_msg)
        (int32_t_cast (codec_create_msg + L.create_static_params)) NULL)
    -- eError = MmRpc_call(MmRpcHandle, &fxnCtx, &fxnRet)
    let eError := env.call.status
    let logCall := logAlloc ++ [Effect.MmRpc_call s.MmRpcHandle fxnCtx]
    -- _ASSERT_AND_EXECUTE(eError == DCE_EOK, DCE_EIPC_CALL_FAIL, codec_handle = NULL)
    _ASSERT_AND_EXECUTE (eError = DCE_EOK)
      { log := logCall, msg := codec_create_msg, ret := NULL }
      -- codec_handle = codec_create_msg->codec_handle
      { log := logCall, msg := codec_create_msg, ret := env.codec_handle }
  -- EXIT: memplugin_free(codec_create_msg, TILER_1D_BUFFER); return codec_handle
  { codec_handle := body.ret, session := s, log := body.log ++ [Effect.memplugin_free body.msg] }

/-- Environment of one `control` or `get_version` call: the address returned by
`memplugin_alloc`, the outcome of `MmRpc_call` and the `result` field of the message struct
as the call leaves it. -/
structure control_env where
  alloc : Ptr
  call : MmRpc_call_outcome
  result : Int
  deriving DecidableEq

/-- Result of `control` and of `get_version`. -/
structure control_result where
  eError : Int
  session : Session
  log : List Effect
  deriving DecidableEq

/-- `control`. -/
def control (L : Layout) (mem : Memory) (s : Session) (codec : Ptr) (id : Int)
    (dynParams status : Ptr) (codec_id : dce_codec_type) (env : control_env) : control_result :=
  let body : at_EXIT Int :=
    -- _ASSERT(codec != NULL, DCE_EINVALID_INPUT)
    _ASSERT (codec ≠ NULL) { log := [], msg := NULL, ret := DCE_EINVALID_INPUT } <|
    -- _ASSERT(dynParams != NULL, DCE_EINVALID_INPUT)
    _ASSERT (dynParams ≠ NULL) { log := [], msg := NULL, ret := DCE_EINVALID_INPUT } <|
    -- _ASSERT(status != NULL, DCE_EINVALID_INPUT)
    _ASSERT (status ≠ NULL) { log := [], msg := NULL, ret := DCE_EINVALID_INPUT } <|
    -- codec_control_msg = memplugin_alloc(sizeof(dce_codec_control), 0, TILER_1D_BUFFER)
    let codec_control_msg := env.alloc
    let logAlloc := [Effect.memplugin_alloc L.sizeof_dce_codec_control codec_control_msg]
    -- _ASSERT(codec_control_msg != NULL, DCE_EOUT_OF_MEMORY)
    _ASSERT (codec_control_msg ≠ NULL)
      { log := logAlloc, msg := codec_control_msg, ret := DCE_EOUT_OF_MEMORY } <|
    -- the pointer-sized fields of the message struct, in assignment order:
    -- codec_handle = codec, dyn_params = dynParams, status = status
    let mem1 := ((mem.store (codec_control_msg + L.control_codec_handle) codec).store
      (codec_control_msg + L.control_dyn_params) dynParams).store
      (codec_control_msg + L.control_status) status
    -- Fill_MmRpc_fxnCtx(&fxnCtx, DCE_RPC_CODEC_CONTROL, 1, 2, xltAry)
    let fxnCtx := (((Fill_MmRpc_fxnCtx dce_rpc_call.DCE_RPC_CODEC_CONTROL 1 2).setParam 0
      (Fill_MmRpc_fxnCtx_Ptr_Params L.sizeof_dce_codec_control codec_control_msg NULL)).setXlt 0
      (Fill_MmRpc_fxnCtx_Xlt_Array mem1 0 (int32_t_cast codec_control_msg)
        (int32_t_cast (codec_control_msg + L.control_dyn_params)) NULL)).setXlt 1
      (Fill_MmRpc_fxnCtx_Xlt_Array mem1 0 (int32_t_cast codec_control_msg)
        (int32_t_cast (codec_control_msg + L.control_status)) NULL)
    -- eError = MmRpc_call(MmRpcHandle, &fxnCtx, &fxnRet)
    let eError := env.call.status
    let logCall := logAlloc ++ [Effect.MmRpc_call s.MmRpcHandle fxnCtx]
    -- _ASSERT(eError == DCE_EOK, DCE_EIPC_CALL_FAIL)
    _ASSERT (eError = DCE_EOK)
      { log := logCall, msg := codec_control_msg, ret := DCE_EIPC_CALL_FAIL }
      -- eError = codec_control_msg->result
      { log := logCall, msg := codec_control_msg, ret := env.result }
  -- EXIT: memplugin_free(codec_control_msg, TILER_1D_BUFFER); return eError
  { eError := body.ret, session := s, log := body.log ++ [Effect.memplugin_free body.msg] }

/-- `get_version`. Both family branches read `((IVIDDEC3_Status *)status)->data.buf`. -/
def get_version (L : Layout) (mem : Memory) (s : Session) (codec : Ptr)
    (dynParams status : Ptr) (codec_id : dce_codec_type) (env : control_env) : control_result :=
  let body : at_EXIT Int :=
    -- _ASSERT(codec != NULL, DCE_EINVALID_INPUT)
    _ASSERT (codec ≠ NULL) { log := [], msg := NULL, ret := DCE_EINVALID_INPUT } <|
    -- _ASSERT(dynParams != NULL, DCE_EINVALID_INPUT)
    _ASSERT (dynParams ≠ NULL) { log := [], msg := NULL, ret := DCE_EINVALID_INPUT } <|
    -- _ASSERT(status != NULL, DCE_EINVALID_INPUT)
    _ASSERT (status ≠ NULL) { log := [], msg := NULL, ret := DCE_EINVALID_INPUT } <|
    -- codec_get_version_msg = memplugin_alloc(sizeof(dce_codec_get_version), 0, ...)
    let codec_get_version_msg := env.alloc
    let logAlloc :=
      [Effect.memplugin_alloc L.sizeof_dce_codec_get_version codec_get_version_msg]
    -- _ASSERT(codec_get_version_msg != NULL, DCE_EOUT_OF_MEMORY)
    _ASSERT (codec_get_version_msg ≠ NULL)
      { log := logAlloc, msg := codec_get_version_msg, ret := DCE_EOUT_OF_MEMORY } <|
    -- the pointer-sized fields of the message struct, in assignment order:
    -- codec_handle = codec, dyn_params = dynParams, status = status
    let mem0 := ((mem.store (codec_get_version_msg + L.get_version_codec_handle) codec).store
      (codec_get_version_msg + L.get_version_dyn_params) dynParams).store
      (codec_get_version_msg + L.get_version_status) status
    -- version = ((IVIDDEC3_Status *)status)->data.buf, in either family branch
    let version := match codec_id with
      | dce_codec_type.OMAP_DCE_VIDDEC3 => mem0.ptr (status + L.IVIDDEC3_Status_data_buf)
      | dce_codec_type.OMAP_DCE_VIDENC2 => mem0.ptr (status + L.IVIDDEC3_Status_data_buf)
    let mem1 := mem0.store (codec_get_version_msg + L.get_version_version) version
    -- Fill_MmRpc_fxnCtx(&fxnCtx, DCE_RPC_CODEC_CONTROL, 1, 3, xltAry)
    let fxnCtx := ((((Fill_MmRpc_fxnCtx dce_rpc_call.DCE_RPC_CODEC_CONTROL 1 3).setParam 0
      (Fill_MmRpc_fxnCtx_Ptr_Params L.sizeof_dce_codec_get_version codec_get_version_msg
        NULL)).setXlt 0
      (Fill_MmRpc_fxnCtx_Xlt_Array mem1 0 (int32_t_cast codec_get_version_msg)
        (int32_t_cast (codec_get_version_msg + L.get_version_dyn_params)) NULL)).setXlt 1
      (Fill_MmRpc_fxnCtx_Xlt_Array mem1 0 (int32_t_cast codec_get_version_msg)
        (int32_t_cast (codec_get_version_msg + L.get_version_status)) NULL)).setXlt 2
      (Fill_MmRpc_fxnCtx_Xlt_Array mem1 0 (int32_t_cast codec_get_version_msg)
        (int32_t_cast (codec_get_version_msg + L.get_version_version)) NULL)
    -- eError = MmRpc_call(MmRpcHandle, &fxnCtx, &fxnRet)
    let eError := env.call.status
    let logCall := logAlloc ++ [Effect.MmRpc_call s.MmRpcHandle fxnCtx]
    -- _ASSERT(eError == DCE_EOK, DCE_EIPC_CALL_FAIL)
    _ASSERT (eError = DCE_EOK)
      { log := logCall, msg := codec_get_version_msg, ret := DCE_EIPC_CALL_FAIL }
      -- eError = codec_get_version_msg->result
      { log := logCall, msg := codec_get_version_msg, ret := env.result }
  -- EXIT: memplugin_free(codec_get_version_msg, TILER_1D_BUFFER); return eError
  { eError := body.ret, session := s, log := body.log ++ [Effect.memplugin_free body.msg] }

/-- Environment of one `delete` call. -/
structure delete_env where
  alloc : Ptr
  call : MmRpc_call_outcome
  deriving DecidableEq

/-- Result of `delete`. -/
structure delete_result where
  session : Session
  log : List Effect
  deriving DecidableEq

/-- The function `delete` of the source. -/
def delete (L : Layout) (s : Session) (codec : Ptr) (codec_id : dce_codec_type)
    (env : delete_env) : delete_result :=
  let body : at_EXIT Unit :=
    -- _ASSERT(codec != NULL, DCE_EINVALID_INPUT)
    _ASSERT (codec ≠ NULL) { log := [], msg := NULL, ret := () } <|
    -- codec_delete_msg = memplugin_alloc(sizeof(dce_codec_delete), 0, TILER_1D_BUFFER)
    let codec_delete_msg := env.alloc
    let logAlloc := [Effect.memplugin_alloc L.sizeof_dce_codec_delete codec_delete_msg]
    -- _ASSERT(codec_delete_msg != NULL, DCE_EOUT_OF_MEMORY)
    _ASSERT (codec_delete_msg ≠ NULL) { log := logAlloc, msg := codec_delete_msg, ret := () } <|
    -- Fill_MmRpc_fxnCtx(&fxnCtx, DCE_RPC_CODEC_DELETE, 1, 0, NULL)
    let fxnCtx := (Fill_MmRpc_fxnCtx dce_rpc_call.DCE_RPC_CODEC_DELETE 1 0).setParam 0
      (Fill_MmRpc_fxnCtx_Ptr_Params L.sizeof_dce_codec_delete codec_delete_msg NULL)
    -- eError = MmRpc_call(MmRpcHandle, &fxnCtx, &fxnRet)
    let eError := env.call.status
    let logCall := logAlloc ++ [Effect.MmRpc_call s.MmRpcHandle fxnCtx]
    -- _ASSERT(eError == DCE_EOK, DCE_EIPC_CALL_FAIL)
    _ASSERT (eError = DCE_EOK) { log := logCall, msg := codec_delete_msg, ret := () }
      { log := logCall, msg := codec_delete_msg, ret := () }
  -- EXIT: memplugin_free(codec_delete_msg, TILER_1D_BUFFER)
  { session := s, log := body.log ++ [Effect.memplugin_free body.msg] }

/-! ## Process -/

/-- Argument slot `CODEC_HANDLE_INDEX` of `process_call_params`. -/
def CODEC_HANDLE_INDEX : Nat := 0

/-- Argument slot `INBUFS_INDEX` of `process_call_params`. -/
def INBUFS_INDEX : Nat := 1

/-- Argument slot `OUTBUFS_INDEX` of `process_call_params`. -/
def OUTBUFS_INDEX : Nat := 2

/-- Argument slot `INARGS_INDEX` of `process_call_params`. -/
def INARGS_INDEX : Nat := 3

/-- Argument slot `OUTARGS_INDEX` of `process_call_params`. -/
def OUTARGS_INDEX : Nat := 4

/-- Argument slot `CODEC_ID_INDEX` of `process_call_params`. -/
def CODEC_ID_INDEX : Nat := 5

/-- Address `&(((XDM2_BufDesc *)bufs)->descs[count].buf)`. -/
def XDM2_BufDesc_descs_buf (L : Layout) (bufs : Ptr) (count : Nat) : Ptr :=
  bufs + L.XDM2_BufDesc_descs + count * L.sizeof_XDM2_SingleBufDesc + L.XDM2_SingleBufDesc_buf

/-- Address `&(((IVIDEO2_BufDesc *)bufs)->planeDesc[count].buf)`. -/
def IVIDEO2_BufDesc_planeDesc_buf (L : Layout) (bufs : Ptr) (count : Nat) : Ptr :=
  bufs + L.IVIDEO2_BufDesc_planeDesc + count * L.sizeof_XDM2_SingleBufDesc +
    L.XDM2_SingleBufDesc_buf

/-- The first loop of `process`, `for (count = 0, total_count = 0; count < numInBufs;
count++, total_count++)`, entered with `n` iterations left: the assignments
`fxnCtx.xltAry[total_count] = ...` it performs, in order. -/
def process_inBufs_loop (L : Layout) (mem : Memory) (inBufs : Ptr) (codec_id : dce_codec_type) :
    Nat → Nat → Nat → List (Nat × MmRpc_Xlt)
  | 0, _, _ => []
  | n + 1, count, total_count =>
    (total_count,
      match codec_id with
      | dce_codec_type.OMAP_DCE_VIDDEC3 =>
        Fill_MmRpc_fxnCtx_Xlt_Array mem INBUFS_INDEX (int32_t_cast inBufs)
          (int32_t_cast (XDM2_BufDesc_descs_buf L inBufs count)) NULL
      | dce_codec_type.OMAP_DCE_VIDENC2 =>
        Fill_MmRpc_fxnCtx_Xlt_Array mem INBUFS_INDEX (int32_t_cast inBufs)
          (int32_t_cast (IVIDEO2_BufDesc_planeDesc_buf L inBufs count)) NULL) ::
    process_inBufs_loop L mem inBufs codec_id n (count + 1) (total_count + 1)

/-- The second loop of `process`, `for (count = 0; count < numOutBufs; count++,
total_count++)`, entered with `n` iterations left. -/
def process_outBufs_loop (L : Layout) (mem : Memory) (outBufs : Ptr) :
    Nat → Nat → Nat → List (Nat × MmRpc_Xlt)
  | 0, _, _ => []
  | n + 1, count, total_count =>
    (total_count,
      Fill_MmRpc_fxnCtx_Xlt_Array mem OUTBUFS_INDEX (int32_t_cast outBufs)
        (int32_t_cast (XDM2_BufDesc_descs_buf L outBufs count)) NULL) ::
    process_outBufs_loop L mem outBufs n (count + 1) (total_count + 1)

/-- Environment of one `process` call. -/
structure process_env where
  call : MmRpc_call_outcome
  deriving DecidableEq

/-- Result of `process`. `in_bounds` tells whether every assignment to the local array
`xltAry` stayed inside its `MAX_TOTAl_BUF` elements. When it is `false` the loops wrote past
the array and the behaviour of the C program is undefined from the first such write on:
the other fields then record only the assignments and the call the code goes on to
attempt, not what a run of the program yields. -/
structure process_result where
  eError : Int
  session : Session
  log : List Effect
  in_bounds : Bool
  deriving DecidableEq

/-- The value `numInBufs` that `process` reads for a family. -/
def process_numInBufs (L : Layout) (mem : Memory) (inBufs : Ptr) : dce_codec_type → Int
  -- numInBufs = ((XDM2_BufDesc *)inBufs)->numBufs
  | dce_codec_type.OMAP_DCE_VIDDEC3 => mem.int (inBufs + L.XDM2_BufDesc_numBufs)
  -- numInBufs = ((IVIDEO2_BufDesc *)inBufs)->numPlanes
  | dce_codec_type.OMAP_DCE_VIDENC2 => mem.int (inBufs + L.IVIDEO2_BufDesc_numPlanes)

/-- The value `numOutBufs` that `process` reads: `((XDM2_BufDesc *)outBufs)->numBufs` in
either family branch. -/
def process_numOutBufs (L : Layout) (mem : Memory) (outBufs : Ptr) : dce_codec_type → Int
  | dce_codec_type.OMAP_DCE_VIDDEC3 => mem.int (outBufs + L.XDM2_BufDesc_numBufs)
  | dce_codec_type.OMAP_DCE_VIDENC2 => mem.int (outBufs + L.XDM2_BufDesc_numBufs)

/-- The array `sz` that `process` fills for a family, as a function of the slot. -/
def process_sz (L : Layout) : dce_codec_type → Nat → Int
  | dce_codec_type.OMAP_DCE_VIDDEC3, i =>
    if i = INBUFS_INDEX then L.sizeof_XDM2_BufDesc
    else if i = OUTBUFS_INDEX then L.sizeof_XDM2_BufDesc
    else if i = INARGS_INDEX then L.sizeof_VIDDEC3_InArgs
    else if i = OUTARGS_INDEX then L.sizeof_VIDDEC3_OutArgs
    else 0
  | dce_codec_type.OMAP_DCE_VIDENC2, i =>
    if i = INBUFS_INDEX then L.sizeof_IVIDEO2_BufDesc
    else if i = OUTBUFS_INDEX then L.sizeof_XDM2_BufDesc
    else if i = INARGS_INDEX then L.sizeof_VIDENC2_InArgs
    else if i = OUTARGS_INDEX then L.sizeof_VIDENC2_OutArgs
    else 0

/-- The assignments to the call package that `process` makes once its five pointer checks
have passed. `xltAry` lists every assignment `fxnCtx.xltAry[total_count] = ...` of the two
loops with its array index, also those at an index that the array does not have; the
result is the package sent when `process_xltAry_in_bounds` holds. -/
def process_fxnCtx (L : Layout) (mem : Memory) (codec inBufs outBufs inArgs outArgs : Ptr)
    (codec_id : dce_codec_type) : MmRpc_FxnCtx :=
  let numInBufs := process_numInBufs L mem inBufs codec_id
  let numOutBufs := process_numOutBufs L mem outBufs codec_id
  let sz := process_sz L codec_id
  -- Fill_MmRpc_fxnCtx(&fxnCtx, DCE_RPC_CODEC_PROCESS, 6, numInBufs + numOutBufs, xltAry)
  let fxnCtx := ((((((Fill_MmRpc_fxnCtx dce_rpc_call.DCE_RPC_CODEC_PROCESS 6
      (numInBufs + numOutBufs)).setParam CODEC_HANDLE_INDEX
      (Fill_MmRpc_fxnCtx_Scalar_Params 4 (int32_t_cast codec))).setParam INBUFS_INDEX
      (Fill_MmRpc_fxnCtx_Ptr_Params (sz INBUFS_INDEX) inBufs NULL)).setParam OUTBUFS_INDEX
      (Fill_MmRpc_fxnCtx_Ptr_Params (sz OUTBUFS_INDEX) outBufs NULL)).setParam INARGS_INDEX
      (Fill_MmRpc_fxnCtx_Ptr_Params (sz INARGS_INDEX) inArgs NULL)).setParam OUTARGS_INDEX
      (Fill_MmRpc_fxnCtx_Ptr_Params (sz OUTARGS_INDEX) outArgs NULL)).setParam CODEC_ID_INDEX
      (Fill_MmRpc_fxnCtx_Scalar_Params 4 (L.codec_id_value codec_id))
  -- first loop: count from 0 while count < numInBufs, total_count from 0
  let inEntries := process_inBufs_loop L mem inBufs codec_id numInBufs.toNat 0 0
  -- second loop: count from 0 while count < numOutBufs, total_count carried over
  let outEntries := process_outBufs_loop L mem outBufs numOutBufs.toNat 0 numInBufs.toNat
  { fxnCtx with xltAry := fxnCtx.xltAry ++ inEntries ++ outEntries }

/-- The local array `MmRpc_Xlt xltAry[MAX_TOTAl_BUF]` of `process` has `MAX_TOTAl_BUF`
elements: whether every assignment to `xltAry` listed in `c` goes to an index below
`MAX_TOTAl_BUF`. The code makes no such test itself. -/
def process_xltAry_in_bounds (L : Layout) (c : MmRpc_FxnCtx) : Bool :=
  c.xltAry.all (fun ie => decide (ie.1 < L.MAX_TOTAl_BUF))

/-- `process`. -/
def process (L : Layout) (mem : Memory) (s : Session) (codec inBufs outBufs inArgs outArgs : Ptr)
    (codec_id : dce_codec_type) (env : process_env) : process_result :=
  -- _ASSERT(codec != NULL, DCE_EINVALID_INPUT)
  _ASSERT (codec ≠ NULL)
    { eError := DCE_EINVALID_INPUT, session := s, log := [], in_bounds := true } <|
  -- _ASSERT(inBufs != NULL, DCE_EINVALID_INPUT)
  _ASSERT (inBufs ≠ NULL)
    { eError := DCE_EINVALID_INPUT, session := s, log := [], in_bounds := true } <|
  -- _ASSERT(outBufs != NULL, DCE_EINVALID_INPUT)
  _ASSERT (outBufs ≠ NULL)
    { eError := DCE_EINVALID_INPUT, session := s, log := [], in_bounds := true } <|
  -- _ASSERT(inArgs != NULL, DCE_EINVALID_INPUT)
  _ASSERT (inArgs ≠ NULL)
    { eError := DCE_EINVALID_INPUT, session := s, log := [], in_bounds := true } <|
  -- _ASSERT(outArgs != NULL, DCE_EINVALID_INPUT)
  _ASSERT (outArgs ≠ NULL)
    { eError := DCE_EINVALID_INPUT, session := s, log := [], in_bounds := true } <|
  -- MmRpc_Xlt xltAry[MAX_TOTAl_BUF]; the fills and the two loops
  let fxnCtx := process_fxnCtx L mem codec inBufs outBufs inArgs outArgs codec_id
  let in_bounds := process_xltAry_in_bounds L fxnCtx
  -- eError = MmRpc_call(MmRpcHandle, &fxnCtx, &fxnRet)
  let eError := env.call.status
  let log := [Effect.MmRpc_call s.MmRpcHandle fxnCtx]
  -- _ASSERT(eError == DCE_EOK, DCE_EIPC_CALL_FAIL)
  _ASSERT (eError = DCE_EOK)
    { eError := DCE_EIPC_CALL_FAIL, session := s, log := log, in_bounds := in_bounds }
    -- eError = (dce_error_status)(fxnRet); EXIT: return (eError)
    { eError := env.call.fxnRet, session := s, log := log, in_bounds := in_bounds }

/-! ## Sequences of engine calls -/

/-- One engine-level call together with its arguments and environment. -/
inductive Call
  | Engine_open (name : Option String) (env : Engine_open_env)
  | Engine_close (engine : Ptr) (env : Engine_close_env)
  deriving DecidableEq

/-- The session after one call. -/
def Call.step (L : Layout) (s : Session) : Call → Session
  | Call.Engine_open name env => (Libdce.Engine_open L s name env).session
  | Call.Engine_close engine env => (Libdce.Engine_close L s engine env).session

/-- The session after a sequence of calls made one after the other. -/
def run (L : Layout) (s : Session) : List Call → Session
  | [] => s
  | c :: cs => run L (c.step L s) cs

/-- A successful `MmRpc_create` delivers a non-null handle. -/
def MmRpc_create_outcome.wf (o : MmRpc_create_outcome) : Prop :=
  o.status = DCE_EOK → o.handle ≠ NULL

/-- The channel of this call behaves as its interface says. -/
def Call.wf : Call → Prop
  | Call.Engine_open _ env => env.create.wf
  | Call.Engine_close _ _ => True

/-- The session invariant of the data model: the channel handle is non-null iff the
open-count is positive. -/
def Session.inv (s : Session) : Prop := s.MmRpcHandle ≠ NULL ↔ 0 < s.count

/-! ## Reading the log of external calls -/

/-- Addresses passed to `memplugin_free`, in order. -/
def freed : List Effect → List Ptr
  | [] => []
  | Effect.memplugin_free p :: l => p :: freed l
  | _ :: l => freed l

/-- Addresses returned by `memplugin_alloc`, in order (a failed allocation returns `NULL`). -/
def allocated : List Effect → List Ptr
  | [] => []
  | Effect.memplugin_alloc _ p :: l => p :: allocated l
  | _ :: l => allocated l

/-- Handles passed to `MmRpc_delete`, in order. -/
def deleted : List Effect → List Ptr
  | [] => []
  | Effect.MmRpc_delete h :: l => h :: deleted l
  | _ :: l => deleted l

/-- Call packages passed to `MmRpc_call`, in order. -/
def called : List Effect → List MmRpc_FxnCtx
  | [] => []
  | Effect.MmRpc_call _ c :: l => c :: called l
  | _ :: l => called l

/-- Channel handles passed to `MmRpc_call`, in order. -/
def call_handles : List Effect → List Ptr
  | [] => []
  | Effect.MmRpc_call h _ :: l => h :: call_handles l
  | _ :: l => call_handles l

/-- Number of `MmRpc_create` calls. -/
def created : List Effect → Nat
  | [] => 0
  | Effect.MmRpc_create :: l => created l + 1
  | _ :: l => created l

/-- A sample layout (32-bit target) on which the model is evaluated at concrete inputs. -/
def Layout.sample : Layout :=
  { sizeof_dce_engine_open := 40
    sizeof_dce_engine_close := 4
    sizeof_dce_codec_create := 52
    sizeof_dce_codec_control := 28
    sizeof_dce_codec_get_version := 28
    sizeof_dce_codec_delete := 8
    sizeof_XDM2_BufDesc := 324
    sizeof_IVIDEO2_BufDesc := 200
    sizeof_VIDDEC3_InArgs := 12
    sizeof_VIDDEC3_OutArgs := 600
    sizeof_VIDENC2_InArgs := 12
    sizeof_VIDENC2_OutArgs := 400
    sizeof_XDM2_SingleBufDesc := 20
    create_engine := 0
    create_codec_handle := 44
    create_static_params := 40
    control_codec_handle := 0
    control_dyn_params := 12
    control_status := 16
    get_version_codec_handle := 0
    get_version_dyn_params := 8
    get_version_status := 12
    get_version_version := 16
    IVIDDEC3_Status_data_buf := 8
    XDM2_BufDesc_numBufs := 0
    XDM2_BufDesc_descs := 4
    IVIDEO2_BufDesc_numPlanes := 0
    IVIDEO2_BufDesc_planeDesc := 12
    XDM2_SingleBufDesc_buf := 0
    codec_id_value := fun c => if c = dce_codec_type.OMAP_DCE_VIDENC2 then 1 else 2
    MAX_TOTAl_BUF := 4 }

/-- A sample memory: every pointer word is `NULL`, every integer word is `n`. -/
def Memory.const (n : Int) : Memory := { ptr := fun _ => NULL, int := fun _ => n }

/-- Every `Engine_close` of the sequence is made while the open-count is positive, and no
`Engine_open` of it fails at channel creation. -/
def matched (L : Layout) (s : Session) : List Call → Bool
  | [] => true
  | Call.Engine_open name env :: cs =>
    (name.isNone || decide ((dce_init s env.create).eError = DCE_EOK)) &&
      matched L ((Call.Engine_open name env).step L s) cs
  | Call.Engine_close engine env :: cs =>
    decide (0 < s.count) && matched L ((Call.Engine_close engine env).step L s) cs

/-! ## Session manager: properties -/

theorem dce_init_of_ne (s : Session) (o : MmRpc_create_outcome) (h : s.count + 1 ≠ 1) :
    dce_init s o =
      { eError := DCE_EOK, session := { MmRpcHandle := s.MmRpcHandle, count := s.count + 1 }
        log := [] } := by
  unfold dce_init _ASSERT
  dsimp only
  rw [if_neg h]

theorem dce_init_of_created (s : Session) (o : MmRpc_create_outcome) (h : s.count + 1 = 1)
    (ho : o.status = DCE_EOK) :
    dce_init s o =
      { eError := DCE_EOK, session := { MmRpcHandle := o.handle, count := s.count + 1 }
        log := [Effect.MmRpc_create] } := by
  unfold dce_init _ASSERT _ASSERT_AND_EXECUTE
  dsimp only
  rw [if_pos h, if_pos ho, if_pos ho, ho]

theorem dce_init_of_failed (s : Session) (o : MmRpc_create_outcome) (h : s.count + 1 = 1)
    (ho : o.status ≠ DCE_EOK) :
    dce_init s o =
      { eError := DCE_EIPC_CREATE_FAIL
        session := { MmRpcHandle := s.MmRpcHandle, count := s.count + 1 - 1 }
        log := [Effect.MmRpc_create] } := by
  unfold dce_init _ASSERT _ASSERT_AND_EXECUTE
  dsimp only
  rw [if_pos h, if_neg ho, if_neg ho]

theorem dce_init_count (s : Session) (o : MmRpc_create_outcome) :
    (dce_init s o).session.count =
      if (dce_init s o).eError = DCE_EOK then s.count + 1 else s.count := by
  by_cases h : s.count + 1 = 1
  · by_cases ho : o.status = DCE_EOK
    · rw [dce_init_of_created s o h ho]
      rfl
    · rw [dce_init_of_failed s o h ho]
      show s.count + 1 - 1 = if DCE_EIPC_CREATE_FAIL = DCE_EOK then s.count + 1 else s.count
      rw [if_neg (by decide)]
      omega
  · rw [dce_init_of_ne s o h]
    rfl

theorem dce_init_inv (s : Session) (o : MmRpc_create_outcome) (ho : o.wf) (hs : s.inv) :
    (dce_init s o).session.inv := by
  unfold Session.inv at hs ⊢
  by_cases h : s.count + 1 = 1
  · by_cases hst : o.status = DCE_EOK
    · rw [dce_init_of_created s o h hst]
      show o.handle ≠ NULL ↔ 0 < s.count + 1
      constructor
      · intro _; omega
      · intro _; exact ho hst
    · rw [dce_init_of_failed s o h hst]
      show s.MmRpcHandle ≠ NULL ↔ 0 < s.count + 1 - 1
      rw [hs]
      constructor <;> intro h1 <;> omega
  · rw [dce_init_of_ne s o h]
    show s.MmRpcHandle ≠ NULL ↔ 0 < s.count + 1
    rw [hs]
    constructor <;> intro h1 <;> omega

theorem dce_init_called (s : Session) (o : MmRpc_create_outcome) :
    called (dce_init s o).log = [] := by
  by_cases h : s.count + 1 = 1
  · by_cases hst : o.status = DCE_EOK
    · rw [dce_init_of_created s o h hst]; rfl
    · rw [dce_init_of_failed s o h hst]; rfl
  · rw [dce_init_of_ne s o h]; rfl

theorem dce_deinit_count (s : Session) : (dce_deinit s).session.count = s.count - 1 := by
  unfold dce_deinit
  by_cases h : s.count - 1 > 0
  · rw [if_pos h]
  · rw [if_neg h]

theorem dce_deinit_inv (s : Session) (hs : s.inv) : (dce_deinit s).session.inv := by
  unfold Session.inv at hs ⊢
  unfold dce_deinit
  by_cases h : s.count - 1 > 0
  · rw [if_pos h]
    show s.MmRpcHandle ≠ NULL ↔ 0 < s.count - 1
    rw [hs]
    constructor <;> intro _ <;> omega
  · rw [if_neg h]
    show NULL ≠ NULL ↔ 0 < s.count - 1
    constructor
    · intro h1; exact absurd rfl h1
    · intro h1; omega

theorem Engine_open_session (L : Layout) (s : Session) (name : Option String)
    (env : Engine_open_env) :
    (Engine_open L s name env).session =
      if name.isSome = true then
        if (dce_init s env.create).eError = DCE_EOK then (dce_init s env.create).session
        else (dce_deinit (dce_init s env.create).session).session
      else s := by
  unfold Engine_open _ASSERT _ASSERT_AND_EXECUTE
  dsimp only
  split_ifs <;> rfl

theorem Engine_close_session (L : Layout) (s : Session) (engine : Ptr)
    (env : Engine_close_env) : (Engine_close L s engine env).session = (dce_deinit s).session := by
  unfold Engine_close
  rfl

theorem Call.step_inv (L : Layout) (s : Session) (c : Call) (hc : c.wf) (hs : s.inv) :
    (c.step L s).inv := by
  cases c with
  | Engine_open name env =>
    simp only [Call.step, Engine_open_session]
    simp only [Call.wf] at hc
    split_ifs
    · exact dce_init_inv s env.create hc hs
    · exact dce_deinit_inv _ (dce_init_inv s env.create hc hs)
    · exact hs
  | Engine_close engine env =>
    simp only [Call.step, Engine_close_session]
    exact dce_deinit_inv s hs

theorem run_inv (L : Layout) (cs : List Call) :
    ∀ s : Session, (∀ c ∈ cs, c.wf) → s.inv → (run L s cs).inv := by
  induction cs with
  | nil => intro s _ hs; exact hs
  | cons c cs ih =>
    intro s hwf hs
    simp only [run]
    apply ih
    · intro d hd; exact hwf d (List.mem_cons_of_mem c hd)
    · exact Call.step_inv L s c (hwf c (List.mem_cons_self c cs)) hs

theorem Session.initial_inv : Session.initial.inv := by
  simp [Session.inv, Session.initial, NULL]

theorem run_matched_count (L : Layout) (cs : List Call) :
    ∀ s : Session, 0 ≤ s.count → matched L s cs = true → 0 ≤ (run L s cs).count := by
  induction cs with
  | nil => intro s hs _; exact hs
  | cons c cs ih =>
    intro s hs hm
    cases c with
    | Engine_open name env =>
      simp only [matched, Bool.and_eq_true, Bool.or_eq_true, decide_eq_true_eq] at hm
      simp only [run]
      apply ih _ _ hm.2
      simp only [Call.step, Engine_open_session]
      split_ifs with h1 h2
      · have hc := dce_init_count s env.create
        rw [if_pos h2] at hc
        omega
      · exfalso
        rcases hm.1 with h | h
        · cases name <;> simp at h h1
        · exact h2 h
      · exact hs
    | Engine_close engine env =>
      simp only [matched, Bool.and_eq_true, decide_eq_true_eq] at hm
      simp only [run]
      apply ih _ _ hm.2
      simp only [Call.step, Engine_close_session, dce_deinit_count]
      omega

/-! ## Claims on the session manager and the engine calls -/

/-- An environment in which the channel is created with handle 7, the allocator returns
address 4096 and the call succeeds, leaving `eng_handle = 9` and `error_code = 0`. -/
def Engine_open_env.good : Engine_open_env :=
  { create := { status := 0, handle := 7 }, alloc := 4096
    call := { status := 0, fxnRet := 0 }, eng_handle := 9, error_code := 0 }

/-- C1 (evaluation at the failing inputs): from the initial session (count 0), an
`Engine_open` that fails at channel creation leaves count at -1, because `dce_init`
already took its increment back and `Engine_open` runs `dce_deinit` on top; an
`Engine_open` that fails at the message allocation or at `MmRpc_call` returns a null handle
and leaves count at 1, because neither path releases the session. Only the null-name
failure leaves the count as it was. -/
theorem Engine_open_failure_count :
    (Engine_open Layout.sample Session.initial (some "ivahd_vidsvr")
        { Engine_open_env.good with create := { status := -1, handle := NULL } }).session.count
      = -1 ∧
    (Engine_open Layout.sample Session.initial (some "ivahd_vidsvr")
        { Engine_open_env.good with alloc := NULL }).eng_handle = NULL ∧
    (Engine_open Layout.sample Session.initial (some "ivahd_vidsvr")
        { Engine_open_env.good with alloc := NULL }).session.count = 1 ∧
    (Engine_open Layout.sample Session.initial (some "ivahd_vidsvr")
        { Engine_open_env.good with call := { status := -1, fxnRet := 0 } }).eng_handle = NULL ∧
    (Engine_open Layout.sample Session.initial (some "ivahd_vidsvr")
        { Engine_open_env.good with call := { status := -1, fxnRet := 0 } }).session.count = 1 ∧
    (Engine_open Layout.sample Session.initial none Engine_open_env.good).session.count = 0 := by
  decide

/-- C2 (counterexample): from the initial session, one `Engine_close` with a non-null engine
handle leaves count at -1, so "the handle is non-null iff count > 0, and count is never
negative" fails after this sequence. -/
theorem session_count_negative_after_close :
    ¬ (((run Layout.sample Session.initial
          [Call.Engine_close 9 { alloc := 4096, call := { status := 0, fxnRet := 0 } }]).MmRpcHandle
          ≠ NULL ↔
        0 < (run Layout.sample Session.initial
          [Call.Engine_close 9 { alloc := 4096, call := { status := 0, fxnRet := 0 } }]).count) ∧
      0 ≤ (run Layout.sample Session.initial
          [Call.Engine_close 9 { alloc := 4096, call := { status := 0, fxnRet := 0 } }]).count) := by
  decide

/-- C2 (amended): starting from the initial session, after every finite sequence of
`Engine_open` and `Engine_close` calls with arbitrary arguments and outcomes (a successful
`MmRpc_create` delivering a non-null handle), the channel handle is non-null if and only if
count > 0; and count is not negative when every `Engine_close` of the sequence is made
while count > 0 and no `Engine_open` of it fails at channel creation. -/
theorem session_invariant_after_calls (L : Layout) (cs : List Call) (hwf : ∀ c ∈ cs, c.wf) :
    ((run L Session.initial cs).MmRpcHandle ≠ NULL ↔ 0 < (run L Session.initial cs).count) ∧
    (matched L Session.initial cs = true → 0 ≤ (run L Session.initial cs).count) :=
  ⟨run_inv L cs Session.initial hwf Session.initial_inv,
    run_matched_count L cs Session.initial (le_refl 0)⟩

/-- C2 (witness): open, open, close, close with a channel that is created with handle 7. -/
theorem session_invariant_after_calls_witness :
    (∀ c ∈ [Call.Engine_open (some "ivahd_vidsvr") Engine_open_env.good,
        Call.Engine_open (some "ivahd_vidsvr") Engine_open_env.good,
        Call.Engine_close 9 { alloc := 4096, call := { status := 0, fxnRet := 0 } },
        Call.Engine_close 9 { alloc := 4096, call := { status := 0, fxnRet := 0 } }], c.wf) ∧
    (((run Layout.sample Session.initial
        [Call.Engine_open (some "ivahd_vidsvr") Engine_open_env.good,
        Call.Engine_open (some "ivahd_vidsvr") Engine_open_env.good,
        Call.Engine_close 9 { alloc := 4096, call := { status := 0, fxnRet := 0 } },
        Call.Engine_close 9 { alloc := 4096, call := { status := 0, fxnRet := 0 } }]).MmRpcHandle
          ≠ NULL ↔
      0 < (run Layout.sample Session.initial
        [Call.Engine_open (some "ivahd_vidsvr") Engine_open_env.good,
        Call.Engine_open (some "ivahd_vidsvr") Engine_open_env.good,
        Call.Engine_close 9 { alloc := 4096, call := { status := 0, fxnRet := 0 } },
        Call.Engine_close 9 { alloc := 4096, call := { status := 0, fxnRet := 0 } }]).count) ∧
    0 ≤ (run Layout.sample Session.initial
        [Call.Engine_open (some "ivahd_vidsvr") Engine_open_env.good,
        Call.Engine_open (some "ivahd_vidsvr") Engine_open_env.good,
        Call.Engine_close 9 { alloc := 4096, call := { status := 0, fxnRet := 0 } },
        Call.Engine_close 9 { alloc := 4096, call := { status := 0, fxnRet := 0 } }]).count) :=
  have hwf : ∀ c ∈ [Call.Engine_open (some "ivahd_vidsvr") Engine_open_env.good,
        Call.Engine_open (some "ivahd_vidsvr") Engine_open_env.good,
        Call.Engine_close 9 { alloc := 4096, call := { status := 0, fxnRet := 0 } },
        Call.Engine_close 9 { alloc := 4096, call := { status := 0, fxnRet := 0 } }], c.wf := by
    simp [Call.wf, MmRpc_create_outcome.wf, Engine_open_env.good, NULL]
  ⟨hwf, (session_invariant_after_calls Layout.sample _ hwf).1,
    (session_invariant_after_calls Layout.sample _ hwf).2 (by decide)⟩

/-- C3: `dce_init` with count 0 and a failing `MmRpc_create` returns the
channel-create-failed code and leaves count and handle as they were; with count 0 and a
successful `MmRpc_create` it returns success with count 1 and the created handle; with
count at least 1 it returns success, adds one to count, does not call `MmRpc_create` and
leaves the handle unchanged. -/
theorem dce_init_acquire (s : Session) (o : MmRpc_create_outcome) :
    (s.count = 0 → o.status ≠ DCE_EOK → dce_init s o =
      { eError := DCE_EIPC_CREATE_FAIL, session := s, log := [Effect.MmRpc_create] }) ∧
    (s.count = 0 → o.status = DCE_EOK → dce_init s o =
      { eError := DCE_EOK, session := { MmRpcHandle := o.handle, count := 1 }
        log := [Effect.MmRpc_create] }) ∧
    (1 ≤ s.count → dce_init s o =
      { eError := DCE_EOK, session := { MmRpcHandle := s.MmRpcHandle, count := s.count + 1 }
        log := [] }) := by
  refine ⟨?_, ?_, ?_⟩
  · intro h0 ho
    rw [dce_init_of_failed s o (by omega) ho]
    cases s with
    | mk hd c =>
      simp only at h0
      subst h0
      rfl
  · intro h0 ho
    rw [dce_init_of_created s o (by omega) ho, h0]
    rfl
  · intro h1
    exact dce_init_of_ne s o (by omega)

/-- C3 (witness): the three cases at the sessions (NULL, 0), (NULL, 0) and (7, 2). -/
theorem dce_init_acquire_witness :
    dce_init { MmRpcHandle := NULL, count := 0 } { status := -1, handle := NULL } =
      { eError := DCE_EIPC_CREATE_FAIL, session := { MmRpcHandle := NULL, count := 0 }
        log := [Effect.MmRpc_create] } ∧
    dce_init { MmRpcHandle := NULL, count := 0 } { status := 0, handle := 7 } =
      { eError := DCE_EOK, session := { MmRpcHandle := 7, count := 1 }
        log := [Effect.MmRpc_create] } ∧
    dce_init { MmRpcHandle := 7, count := 2 } { status := -1, handle := NULL } =
      { eError := DCE_EOK, session := { MmRpcHandle := 7, count := 3 }, log := [] } :=
  ⟨(dce_init_acquire { MmRpcHandle := NULL, count := 0 } { status := -1, handle := NULL }).1 rfl
      (by decide),
    (dce_init_acquire { MmRpcHandle := NULL, count := 0 } { status := 0, handle := 7 }).2.1 rfl
      rfl,
    (dce_init_acquire { MmRpcHandle := 7, count := 2 } { status := -1, handle := NULL }).2.2
      (by decide)⟩

theorem deleted_append (l1 l2 : List Effect) : deleted (l1 ++ l2) = deleted l1 ++ deleted l2 := by
  induction l1 with
  | nil => rfl
  | cons e l ih => cases e <;> simp [deleted, ih]

theorem called_append (l1 l2 : List Effect) : called (l1 ++ l2) = called l1 ++ called l2 := by
  induction l1 with
  | nil => rfl
  | cons e l ih => cases e <;> simp [called, ih]

theorem freed_append (l1 l2 : List Effect) : freed (l1 ++ l2) = freed l1 ++ freed l2 := by
  induction l1 with
  | nil => rfl
  | cons e l ih => cases e <;> simp [freed, ih]

theorem allocated_append (l1 l2 : List Effect) :
    allocated (l1 ++ l2) = allocated l1 ++ allocated l2 := by
  induction l1 with
  | nil => rfl
  | cons e l ih => cases e <;> simp [allocated, ih]

theorem Engine_close_deleted (L : Layout) (s : Session) (engine : Ptr)
    (env : Engine_close_env) :
    deleted (Engine_close L s engine env).log = deleted (dce_deinit s).log := by
  unfold Engine_close _ASSERT
  dsimp only
  split_ifs <;> simp [deleted_append, deleted]

theorem dce_deinit_destroys (s : Session) (hs : s.inv) :
    ((dce_deinit s).session.count = 0 →
      deleted (dce_deinit s).log = [s.MmRpcHandle] ∧ s.MmRpcHandle ≠ NULL ∧
        (dce_deinit s).session.MmRpcHandle = NULL) ∧
    ((dce_deinit s).session.count ≠ 0 →
      deleted (dce_deinit s).log = [] ∧ (dce_deinit s).session.MmRpcHandle = s.MmRpcHandle) := by
  unfold Session.inv at hs
  unfold dce_deinit
  by_cases h : s.count - 1 > 0
  · rw [if_pos h]
    constructor
    · intro h0
      have h0 : s.count - 1 = 0 := h0
      omega
    · intro _
      exact ⟨rfl, rfl⟩
  · rw [if_neg h]
    constructor
    · intro h0
      have h0 : s.count - 1 = 0 := h0
      have hne : s.MmRpcHandle ≠ NULL := hs.mpr (by omega)
      refine ⟨?_, hne, rfl⟩
      show deleted (if s.MmRpcHandle ≠ NULL then [Effect.MmRpc_delete s.MmRpcHandle] else []) = _
      rw [if_pos hne]
      rfl
    · intro h0
      have h0 : s.count - 1 ≠ 0 := h0
      have hnull : s.MmRpcHandle = NULL := by
        by_contra hne
        have := hs.mp hne
        omega
      refine ⟨?_, hnull.symm⟩
      show deleted (if s.MmRpcHandle ≠ NULL then [Effect.MmRpc_delete s.MmRpcHandle] else []) = _
      rw [if_neg (not_not.mpr hnull)]
      rfl

/-- C4: in every session reached from the initial one by engine calls, `Engine_close` with
a non-null engine handle, whatever the allocator and `MmRpc_call` do, takes exactly one off
count; when count thereby reaches zero it calls `MmRpc_delete` exactly once, on the channel
handle, and sets the handle to null; otherwise it does not call `MmRpc_delete` and the
handle is unchanged. -/
theorem Engine_close_release (L : Layout) (cs : List Call) (hwf : ∀ c ∈ cs, c.wf)
    (engine : Ptr) (env : Engine_close_env) (hengine : engine ≠ NULL) :
    (Engine_close L (run L Session.initial cs) engine env).session.count =
      (run L Session.initial cs).count - 1 ∧
    ((Engine_close L (run L Session.initial cs) engine env).session.count = 0 →
      deleted (Engine_close L (run L Session.initial cs) engine env).log =
        [(run L Session.initial cs).MmRpcHandle] ∧
      (run L Session.initial cs).MmRpcHandle ≠ NULL ∧
      (Engine_close L (run L Session.initial cs) engine env).session.MmRpcHandle = NULL) ∧
    ((Engine_close L (run L Session.initial cs) engine env).session.count ≠ 0 →
      deleted (Engine_close L (run L Session.initial cs) engine env).log = [] ∧
      (Engine_close L (run L Session.initial cs) engine env).session.MmRpcHandle =
        (run L Session.initial cs).MmRpcHandle) := by
  have hinv := run_inv L cs Session.initial hwf Session.initial_inv
  rw [Engine_close_deleted, Engine_close_session]
  exact ⟨dce_deinit_count _, dce_deinit_destroys _ hinv⟩

/-- C4 (witness): after two opens, a first close whose allocation fails keeps the channel
(count 1), and a second close whose `MmRpc_call` fails destroys it (count 0). -/
theorem Engine_close_release_witness :
    (9 : Ptr) ≠ NULL ∧
    (Engine_close Layout.sample (run Layout.sample Session.initial
        [Call.Engine_open (some "ivahd_vidsvr") Engine_open_env.good,
          Call.Engine_open (some "ivahd_vidsvr") Engine_open_env.good,
          Call.Engine_close 9 { alloc := NULL, call := { status := 0, fxnRet := 0 } }])
      9 { alloc := 4096, call := { status := -1, fxnRet := 0 } }).session.count = 0 ∧
    deleted (Engine_close Layout.sample (run Layout.sample Session.initial
        [Call.Engine_open (some "ivahd_vidsvr") Engine_open_env.good,
          Call.Engine_open (some "ivahd_vidsvr") Engine_open_env.good,
          Call.Engine_close 9 { alloc := NULL, call := { status := 0, fxnRet := 0 } }])
      9 { alloc := 4096, call := { status := -1, fxnRet := 0 } }).log = [7] ∧
    (Engine_close Layout.sample (run Layout.sample Session.initial
        [Call.Engine_open (some "ivahd_vidsvr") Engine_open_env.good,
          Call.Engine_open (some "ivahd_vidsvr") Engine_open_env.good,
          Call.Engine_close 9 { alloc := NULL, call := { status := 0, fxnRet := 0 } }])
      9 { alloc := 4096, call := { status := -1, fxnRet := 0 } }).session.MmRpcHandle = NULL :=
  have hwf : ∀ c ∈ [Call.Engine_open (some "ivahd_vidsvr") Engine_open_env.good,
        Call.Engine_open (some "ivahd_vidsvr") Engine_open_env.good,
        Call.Engine_close 9 { alloc := NULL, call := { status := 0, fxnRet := 0 } }], c.wf := by
    simp [Call.wf, MmRpc_create_outcome.wf, Engine_open_env.good, NULL]
  have h := Engine_close_release Layout.sample _ hwf 9
    { alloc := 4096, call := { status := -1, fxnRet := 0 } } (by decide)
  ⟨by decide, by decide, (h.2.1 (by decide)).1, (h.2.1 (by decide)).2.2⟩

/-- C7: when the name is non-null, the session acquisition succeeds, the allocation
succeeds and `MmRpc_call` succeeds leaving `eng_handle = h` and `error_code = e` in the
message struct, `Engine_open` returns `h` and writes `e` to `ec[0]`; the one package it
sends has function id `DCE_RPC_ENGINE_OPEN`, one argument, a pointer of size
`sizeof(dce_engine_open)` to the message struct in slot 0, and no translation entry. -/
theorem Engine_open_echo (L : Layout) (s : Session) (name : Option String)
    (env : Engine_open_env) (h : Ptr) (e : Int)
    (hname : name.isSome = true)
    (hinit : (dce_init s env.create).eError = DCE_EOK)
    (halloc : env.alloc ≠ NULL)
    (hcall : env.call.status = DCE_EOK)
    (hh : env.eng_handle = h) (he : env.error_code = e) :
    (Engine_open L s name env).eng_handle = h ∧
    (Engine_open L s name env).ec = some e ∧
    called (Engine_open L s name env).log =
      [{ fxn_id := dce_rpc_call.DCE_RPC_ENGINE_OPEN, num_params := 1, num_xlts := 0
         params := [(0, MmRpc_Param.Ptr L.sizeof_dce_engine_open env.alloc NULL)]
         xltAry := [] }] := by
  unfold Engine_open _ASSERT _ASSERT_AND_EXECUTE
  dsimp only
  rw [if_pos hname, if_pos hinit, if_pos halloc, if_pos hcall]
  subst hh he
  refine ⟨rfl, rfl, ?_⟩
  simp only [called_append, dce_init_called]
  rfl

/-- C7 (witness): the first open of a process, with a channel echoing handle 9 and code 0. -/
theorem Engine_open_echo_witness :
    (Engine_open Layout.sample Session.initial (some "ivahd_vidsvr")
      Engine_open_env.good).eng_handle = 9 ∧
    (Engine_open Layout.sample Session.initial (some "ivahd_vidsvr")
      Engine_open_env.good).ec = some 0 ∧
    called (Engine_open Layout.sample Session.initial (some "ivahd_vidsvr")
      Engine_open_env.good).log =
      [{ fxn_id := dce_rpc_call.DCE_RPC_ENGINE_OPEN, num_params := 1, num_xlts := 0
         params := [(0, MmRpc_Param.Ptr 40 4096 NULL)], xltAry := [] }] :=
  Engine_open_echo Layout.sample Session.initial (some "ivahd_vidsvr") Engine_open_env.good 9 0
    rfl (by decide) (by decide) (by decide) rfl rfl

/-! ## Claims on rejected calls -/

/-- The calls that `Engine_open`, `create`, `control`, `get_version`, `process` and `delete`
reject for a null handle or a null required pointer make no allocation, do not invoke the
channel and return the session they were given. -/
theorem rejected_calls_leave_session (L : Layout) (mem : Memory) (s : Session) :
    (∀ env, allocated (Engine_open L s none env).log = [] ∧
      called (Engine_open L s none env).log = [] ∧ (Engine_open L s none env).session = s) ∧
    (∀ engine name params codec_id env, name = none ∨ engine = NULL ∨ params = NULL →
      allocated (create L mem s engine name params codec_id env).log = [] ∧
      called (create L mem s engine name params codec_id env).log = [] ∧
      (create L mem s engine name params codec_id env).session = s) ∧
    (∀ codec id dynParams status codec_id env, codec = NULL ∨ dynParams = NULL ∨ status = NULL →
      allocated (control L mem s codec id dynParams status codec_id env).log = [] ∧
      called (control L mem s codec id dynParams status codec_id env).log = [] ∧
      (control L mem s codec id dynParams status codec_id env).session = s) ∧
    (∀ codec dynParams status codec_id env, codec = NULL ∨ dynParams = NULL ∨ status = NULL →
      allocated (get_version L mem s codec dynParams status codec_id env).log = [] ∧
      called (get_version L mem s codec dynParams status codec_id env).log = [] ∧
      (get_version L mem s codec dynParams status codec_id env).session = s) ∧
    (∀ codec inBufs outBufs inArgs outArgs codec_id env,
      codec = NULL ∨ inBufs = NULL ∨ outBufs = NULL ∨ inArgs = NULL ∨ outArgs = NULL →
      allocated (process L mem s codec inBufs outBufs inArgs outArgs codec_id env).log = [] ∧
      called (process L mem s codec inBufs outBufs inArgs outArgs codec_id env).log = [] ∧
      (process L mem s codec inBufs outBufs inArgs outArgs codec_id env).session = s) ∧
    (∀ codec_id env, allocated (delete L s NULL codec_id env).log = [] ∧
      called (delete L s NULL codec_id env).log = [] ∧ (delete L s NULL codec_id env).session = s) := by
  refine ⟨?_, ?_, ?_, ?_, ?_, ?_⟩
  · intro env
    exact ⟨rfl, rfl, rfl⟩
  · intro engine name params codec_id env h
    unfold create _ASSERT _ASSERT_AND_EXECUTE
    dsimp only
    split_ifs with h1 h2 h3
    all_goals first
      | exact ⟨rfl, rfl, rfl⟩
      | (exfalso
         rcases h with h | h | h
         · subst h; simp at h1
         · exact h2 h
         · exact h3 h)
  · intro codec id dynParams status codec_id env h
    unfold control _ASSERT
    dsimp only
    split_ifs with h1 h2 h3
    all_goals first
      | exact ⟨rfl, rfl, rfl⟩
      | (exfalso
         rcases h with h | h | h
         · exact h1 h
         · exact h2 h
         · exact h3 h)
  · intro codec dynParams status codec_id env h
    unfold get_version _ASSERT
    dsimp only
    split_ifs with h1 h2 h3
    all_goals first
      | exact ⟨rfl, rfl, rfl⟩
      | (exfalso
         rcases h with h | h | h
         · exact h1 h
         · exact h2 h
         · exact h3 h)
  · intro codec inBufs outBufs inArgs outArgs codec_id env h
    unfold process _ASSERT
    dsimp only
    split_ifs with h1 h2 h3 h4 h5
    all_goals first
      | exact ⟨rfl, rfl, rfl⟩
      | (exfalso
         rcases h with h | h | h | h | h
         · exact h1 h
         · exact h2 h
         · exact h3 h
         · exact h4 h
         · exact h5 h)
  · intro codec_id env
    exact ⟨rfl, rfl, rfl⟩

/-- C5 (evaluation at the failing input): in a session with count 1 and channel handle 7,
`Engine_close(NULL)` fails its handle check, makes no allocation and does not invoke the
channel, and yet runs `dce_deinit` after the `EXIT` label: count drops to 0, the channel is
deleted and the handle is set to null. -/
theorem Engine_close_null_releases :
    Engine_close Layout.sample { MmRpcHandle := 7, count := 1 } NULL
        { alloc := 4096, call := { status := 0, fxnRet := 0 } } =
      { session := { MmRpcHandle := NULL, count := 0 }
        log := [Effect.memplugin_free NULL, Effect.MmRpc_delete 7] } := by
  decide

/-- C6 (evaluation at the failing input): with the empty string as name (a non-null
pointer), `Engine_open` passes its name check, acquires the session, allocates the
message and invokes the channel, returning the handle the channel delivers; `create`
likewise allocates and invokes the channel. -/
theorem empty_name_accepted :
    Engine_open Layout.sample Session.initial (some "") Engine_open_env.good =
      { eng_handle := 9, ec := some 0, session := { MmRpcHandle := 7, count := 1 }
        log := [Effect.MmRpc_create, Effect.memplugin_alloc 40 4096,
          Effect.MmRpc_call 7
            { fxn_id := dce_rpc_call.DCE_RPC_ENGINE_OPEN, num_params := 1, num_xlts := 0
              params := [(0, MmRpc_Param.Ptr 40 4096 NULL)], xltAry := [] },
          Effect.memplugin_free 4096] } ∧
    (create Layout.sample (Memory.const 0) { MmRpcHandle := 7, count := 1 } 9 (some "") 8192
        dce_codec_type.OMAP_DCE_VIDDEC3
        { alloc := 4096, call := { status := 0, fxnRet := 0 }, codec_handle := 11 }).codec_handle
      = 11 ∧
    allocated (create Layout.sample (Memory.const 0) { MmRpcHandle := 7, count := 1 } 9 (some "")
        8192 dce_codec_type.OMAP_DCE_VIDDEC3
        { alloc := 4096, call := { status := 0, fxnRet := 0 }, codec_handle := 11 }).log
      = [4096] ∧
    (called (create Layout.sample (Memory.const 0) { MmRpcHandle := 7, count := 1 } 9 (some "")
        8192 dce_codec_type.OMAP_DCE_VIDDEC3
        { alloc := 4096, call := { status := 0, fxnRet := 0 }, codec_handle := 11 }).log).length
      = 1 := by
  refine ⟨by decide, by decide, by decide, by decide⟩

/-! ## Claims on the release of the shared message -/

/-- The log ends with the only `memplugin_free` of the call, and the address freed is the
one the only `memplugin_alloc` of the call returned, or `NULL` when the call made no
allocation. -/
def frees_own_message (log : List Effect) : Prop :=
  ∃ pre a, log = pre ++ [Effect.memplugin_free a] ∧ freed pre = [] ∧
    (allocated pre = [a] ∨ (allocated pre = [] ∧ a = NULL))

/-- C8 (counterexample): `control` with a null codec handle allocates nothing and still
issues a `memplugin_free`, on `NULL`: "no free is issued" and "never a free on an address
the call did not allocate" both fail on the invalid-input path. -/
theorem control_invalid_input_frees_null :
    ¬ (freed (control Layout.sample (Memory.const 0) { MmRpcHandle := 7, count := 1 } NULL 1
          8192 12288 dce_codec_type.OMAP_DCE_VIDDEC3
          { alloc := 4096, call := { status := 0, fxnRet := 0 }, result := 0 }).log = []) ∧
    ¬ (∀ p ∈ freed (control Layout.sample (Memory.const 0) { MmRpcHandle := 7, count := 1 } NULL 1
          8192 12288 dce_codec_type.OMAP_DCE_VIDDEC3
          { alloc := 4096, call := { status := 0, fxnRet := 0 }, result := 0 }).log,
        p ∈ allocated (control Layout.sample (Memory.const 0) { MmRpcHandle := 7, count := 1 }
          NULL 1 8192 12288 dce_codec_type.OMAP_DCE_VIDDEC3
          { alloc := 4096, call := { status := 0, fxnRet := 0 }, result := 0 }).log) := by
  refine ⟨by decide, by decide⟩

/-- C8 (amended): for each of `create`, `control`, `get_version` and `delete`, for every
input and every outcome of the allocator and the channel, the call issues exactly one
`memplugin_free`, as its last external call: on the address its `memplugin_alloc` returned
when it made an allocation (so a message that was allocated is released exactly once,
and a failed allocation has `NULL` freed), and on `NULL` when it was rejected before
allocating; no other address is ever freed. -/
theorem message_freed_once (L : Layout) (mem : Memory) (s : Session) :
    (∀ engine name params codec_id env,
      frees_own_message (create L mem s engine name params codec_id env).log) ∧
    (∀ codec id dynParams status codec_id env,
      frees_own_message (control L mem s codec id dynParams status codec_id env).log) ∧
    (∀ codec dynParams status codec_id env,
      frees_own_message (get_version L mem s codec dynParams status codec_id env).log) ∧
    (∀ codec codec_id env, frees_own_message (delete L s codec codec_id env).log) := by
  refine ⟨?_, ?_, ?_, ?_⟩
  · intro engine name params codec_id env
    unfold create _ASSERT _ASSERT_AND_EXECUTE
    dsimp only
    split_ifs
    all_goals first
      | exact ⟨_, _, rfl, rfl, Or.inr ⟨rfl, rfl⟩⟩
      | exact ⟨_, _, rfl, rfl, Or.inl rfl⟩
  · intro codec id dynParams status codec_id env
    unfold control _ASSERT
    dsimp only
    split_ifs
    all_goals first
      | exact ⟨_, _, rfl, rfl, Or.inr ⟨rfl, rfl⟩⟩
      | exact ⟨_, _, rfl, rfl, Or.inl rfl⟩
  · intro codec dynParams status codec_id env
    unfold get_version _ASSERT
    dsimp only
    split_ifs
    all_goals first
      | exact ⟨_, _, rfl, rfl, Or.inr ⟨rfl, rfl⟩⟩
      | exact ⟨_, _, rfl, rfl, Or.inl rfl⟩
  · intro codec codec_id env
    unfold delete _ASSERT
    dsimp only
    split_ifs
    all_goals first
      | exact ⟨_, _, rfl, rfl, Or.inr ⟨rfl, rfl⟩⟩
      | exact ⟨_, _, rfl, rfl, Or.inl rfl⟩

/-! ## Claims on the translation entries -/

/-- Address of the `buf` field of input slot `i` for a family: `descs[i].buf` of the
`XDM2_BufDesc` for the decoder, `planeDesc[i].buf` of the `IVIDEO2_BufDesc` for the
encoder. -/
def inBufs_slot_buf (L : Layout) (inBufs : Ptr) : dce_codec_type → Nat → Ptr
  | dce_codec_type.OMAP_DCE_VIDDEC3, i => XDM2_BufDesc_descs_buf L inBufs i
  | dce_codec_type.OMAP_DCE_VIDENC2, i => IVIDEO2_BufDesc_planeDesc_buf L inBufs i

theorem process_inBufs_loop_eq (L : Layout) (mem : Memory) (inBufs : Ptr)
    (codec_id : dce_codec_type) (n : Nat) :
    ∀ count total_count : Nat,
      process_inBufs_loop L mem inBufs codec_id n count total_count =
        (List.range n).map (fun i => (total_count + i,
          Fill_MmRpc_fxnCtx_Xlt_Array mem INBUFS_INDEX (int32_t_cast inBufs)
            (int32_t_cast (inBufs_slot_buf L inBufs codec_id (count + i))) NULL)) := by
  induction n with
  | zero => intro count total_count; rfl
  | succ n ih =>
    intro count total_count
    show (_ :: process_inBufs_loop L mem inBufs codec_id n (count + 1) (total_count + 1)) = _
    rw [ih, List.range_succ_eq_map, List.map_cons, List.map_map]
    congr 1
    · cases codec_id <;> rfl
    · apply List.map_congr_left
      intro i _
      simp only [Function.comp_apply]
      rw [show total_count + 1 + i = total_count + (i + 1) by omega,
        show count + 1 + i = count + (i + 1) by omega]

theorem process_outBufs_loop_eq (L : Layout) (mem : Memory) (outBufs : Ptr) (n : Nat) :
    ∀ count total_count : Nat,
      process_outBufs_loop L mem outBufs n count total_count =
        (List.range n).map (fun i => (total_count + i,
          Fill_MmRpc_fxnCtx_Xlt_Array mem OUTBUFS_INDEX (int32_t_cast outBufs)
            (int32_t_cast (XDM2_BufDesc_descs_buf L outBufs (count + i))) NULL)) := by
  induction n with
  | zero => intro count total_count; rfl
  | succ n ih =>
    intro count total_count
    rw [process_outBufs_loop, ih, List.range_succ_eq_map, List.map_cons, List.map_map]
    congr 1
    apply List.map_congr_left
    intro i _
    simp only [Function.comp_apply]
    rw [show total_count + 1 + i = total_count + (i + 1) by omega,
      show count + 1 + i = count + (i + 1) by omega]

theorem process_fxnCtx_xltAry (L : Layout) (mem : Memory)
    (codec inBufs outBufs inArgs outArgs : Ptr) (codec_id : dce_codec_type) :
    (process_fxnCtx L mem codec inBufs outBufs inArgs outArgs codec_id).xltAry =
      (List.range (process_numInBufs L mem inBufs codec_id).toNat).map (fun i => (i,
        Fill_MmRpc_fxnCtx_Xlt_Array mem INBUFS_INDEX (int32_t_cast inBufs)
          (int32_t_cast (inBufs_slot_buf L inBufs codec_id i)) NULL)) ++
      (List.range (process_numOutBufs L mem outBufs codec_id).toNat).map (fun i =>
        ((process_numInBufs L mem inBufs codec_id).toNat + i,
        Fill_MmRpc_fxnCtx_Xlt_Array mem OUTBUFS_INDEX (int32_t_cast outBufs)
          (int32_t_cast (XDM2_BufDesc_descs_buf L outBufs i)) NULL)) := by
  unfold process_fxnCtx
  simp only [process_inBufs_loop_eq, process_outBufs_loop_eq, Nat.zero_add]
  rfl

theorem process_called (L : Layout) (mem : Memory) (s : Session)
    (codec inBufs outBufs inArgs outArgs : Ptr) (codec_id : dce_codec_type) (env : process_env)
    (hcodec : codec ≠ NULL) (hinBufs : inBufs ≠ NULL) (houtBufs : outBufs ≠ NULL)
    (hinArgs : inArgs ≠ NULL) (houtArgs : outArgs ≠ NULL) :
    called (process L mem s codec inBufs outBufs inArgs outArgs codec_id env).log =
      [process_fxnCtx L mem codec inBufs outBufs inArgs outArgs codec_id] := by
  unfold process _ASSERT
  dsimp only
  rw [if_pos hcodec, if_pos hinBufs, if_pos houtBufs, if_pos hinArgs, if_pos houtArgs]
  split_ifs <;> rfl

/-- Entry `e` of package `c` is measured from the pointer argument at its argument index
and locates `field`: the argument slot `e.index` of `c` holds a pointer argument with some
address `a`, `e.offset` is `MmRpc_OFFSET` of `field` from `a`, and `a` plus `e.offset` is
`field` again as 32-bit integers. -/
def Xlt_locates (c : MmRpc_FxnCtx) (e : MmRpc_Xlt) (field : Ptr) : Prop :=
  ∃ i size a h, (i, MmRpc_Param.Ptr size a h) ∈ c.params ∧ (i : Int) = e.index ∧
    e.offset = MmRpc_OFFSET (int32_t_cast a) (int32_t_cast field) ∧
    unsigned_int_cast (int32_t_cast a + e.offset) = unsigned_int_cast (int32_t_cast field)

/-- The entries of package `c`, in order, locate the listed field addresses, one entry per
field. -/
def Xlts_locate (c : MmRpc_FxnCtx) (fields : List Ptr) : Prop :=
  List.Forall₂ (fun (e : Nat × MmRpc_Xlt) (field : Ptr) => Xlt_locates c e.2 field) c.xltAry
    fields

theorem MmRpc_OFFSET_round_trip (base addr : Int) :
    unsigned_int_cast (base + MmRpc_OFFSET base addr) = unsigned_int_cast addr := by
  unfold MmRpc_OFFSET unsigned_int_cast
  omega

theorem size_t_ptr_cast_round_trip (base field : Nat) (hfield : field < 4294967296) :
    size_t_ptr_cast (int32_t_cast base + MmRpc_OFFSET (int32_t_cast base) (int32_t_cast field)) =
      field := by
  unfold size_t_ptr_cast
  rw [MmRpc_OFFSET_round_trip]
  unfold unsigned_int_cast int32_t_cast
  have h : (((field : Int) + 2147483648) % 4294967296 - 2147483648) % 4294967296 = (field : Int) := by
    omega
  rw [h]
  exact Int.toNat_ofNat field

theorem Xlt_locates_Fill (c : MmRpc_FxnCtx) (mem : Memory) (i : Nat) (size : Int)
    (a h field handle : Ptr) (hmem : (i, MmRpc_Param.Ptr size a h) ∈ c.params) :
    Xlt_locates c
      (Fill_MmRpc_fxnCtx_Xlt_Array mem i (int32_t_cast a) (int32_t_cast field) handle) field :=
  ⟨i, size, a, h, hmem, rfl, rfl, MmRpc_OFFSET_round_trip _ _⟩

theorem Forall₂_map_range {α : Type} (R : α → Ptr → Prop) (f : Nat → α) (g : Nat → Ptr)
    (n : Nat) (h : ∀ i, R (f i) (g i)) :
    List.Forall₂ R ((List.range n).map f) ((List.range n).map g) := by
  rw [List.forall₂_map_left_iff, List.forall₂_map_right_iff]
  exact List.forall₂_same.mpr (fun i _ => h i)

theorem process_fxnCtx_params (L : Layout) (mem : Memory)
    (codec inBufs outBufs inArgs outArgs : Ptr) (codec_id : dce_codec_type) :
    (process_fxnCtx L mem codec inBufs outBufs inArgs outArgs codec_id).params =
      [(CODEC_HANDLE_INDEX, MmRpc_Param.Scalar 4 (size_t_cast (int32_t_cast codec))),
       (INBUFS_INDEX, MmRpc_Param.Ptr (process_sz L codec_id INBUFS_INDEX) inBufs NULL),
       (OUTBUFS_INDEX, MmRpc_Param.Ptr (process_sz L codec_id OUTBUFS_INDEX) outBufs NULL),
       (INARGS_INDEX, MmRpc_Param.Ptr (process_sz L codec_id INARGS_INDEX) inArgs NULL),
       (OUTARGS_INDEX, MmRpc_Param.Ptr (process_sz L codec_id OUTARGS_INDEX) outArgs NULL),
       (CODEC_ID_INDEX, MmRpc_Param.Scalar 4 (size_t_cast (L.codec_id_value codec_id)))] := rfl

/-- C10: the offset that `Fill_MmRpc_fxnCtx_Xlt_Array` records, added back to the base it
was given, is the field address again as 32-bit integers, and is the field address itself
when that address fits in 32 bits; and in every package sent by `create`, `control`,
`get_version` and `process`, each translation entry is measured from the address of the
pointer argument at the entry's argument index and locates its field: `static_params` for
`create`; `dyn_params`, `status` for `control`; `dyn_params`, `status`, `version` for
`get_version`; the `buf` fields of the input slots, then of the output slots, for
`process`. -/
theorem translation_offset_round_trip (L : Layout) (mem : Memory) (s : Session) :
    (∀ (m : Memory) (index base addr : Int) (handle : Ptr),
      unsigned_int_cast (base + (Fill_MmRpc_fxnCtx_Xlt_Array m index base addr handle).offset) =
        unsigned_int_cast addr) ∧
    (∀ (m : Memory) (index : Int) (base field handle : Ptr), field < 4294967296 →
      size_t_ptr_cast (int32_t_cast base + (Fill_MmRpc_fxnCtx_Xlt_Array m index
        (int32_t_cast base) (int32_t_cast field) handle).offset) = field) ∧
    (∀ engine name params codec_id env,
      ∀ c ∈ called (create L mem s engine name params codec_id env).log,
        Xlts_locate c [env.alloc + L.create_static_params]) ∧
    (∀ codec id dynParams status codec_id env,
      ∀ c ∈ called (control L mem s codec id dynParams status codec_id env).log,
        Xlts_locate c [env.alloc + L.control_dyn_params, env.alloc + L.control_status]) ∧
    (∀ codec dynParams status codec_id env,
      ∀ c ∈ called (get_version L mem s codec dynParams status codec_id env).log,
        Xlts_locate c [env.alloc + L.get_version_dyn_params, env.alloc + L.get_version_status,
          env.alloc + L.get_version_version]) ∧
    (∀ codec inBufs outBufs inArgs outArgs codec_id env,
      ∀ c ∈ called (process L mem s codec inBufs outBufs inArgs outArgs codec_id env).log,
        Xlts_locate c
          ((List.range (process_numInBufs L mem inBufs codec_id).toNat).map
              (inBufs_slot_buf L inBufs codec_id) ++
            (List.range (process_numOutBufs L mem outBufs codec_id).toNat).map
              (XDM2_BufDesc_descs_buf L outBufs))) := by
  refine ⟨?_, ?_, ?_, ?_, ?_, ?_⟩
  · intro m index base addr handle
    exact MmRpc_OFFSET_round_trip base addr
  · intro m index base field handle hfield
    exact size_t_ptr_cast_round_trip base field hfield
  · intro engine name params codec_id env c hc
    unfold create _ASSERT _ASSERT_AND_EXECUTE at hc
    dsimp only at hc
    split_ifs at hc <;> simp [called_append, called] at hc
    all_goals
      subst hc
      exact List.Forall₂.cons
        (Xlt_locates_Fill _ _ 0 L.sizeof_dce_codec_create env.alloc NULL _ NULL
          (List.mem_singleton.mpr rfl)) List.Forall₂.nil
  · intro codec id dynParams status codec_id env c hc
    unfold control _ASSERT at hc
    dsimp only at hc
    split_ifs at hc <;> simp [called_append, called] at hc
    all_goals
      subst hc
      exact List.Forall₂.cons
        (Xlt_locates_Fill _ _ 0 L.sizeof_dce_codec_control env.alloc NULL _ NULL
          (List.mem_singleton.mpr rfl))
        (List.Forall₂.cons
          (Xlt_locates_Fill _ _ 0 L.sizeof_dce_codec_control env.alloc NULL _ NULL
            (List.mem_singleton.mpr rfl)) List.Forall₂.nil)
  · intro codec dynParams status codec_id env c hc
    unfold get_version _ASSERT at hc
    dsimp only at hc
    split_ifs at hc <;> simp [called_append, called] at hc
    all_goals
      subst hc
      exact List.Forall₂.cons
        (Xlt_locates_Fill _ _ 0 L.sizeof_dce_codec_get_version env.alloc NULL _ NULL
          (List.mem_singleton.mpr rfl))
        (List.Forall₂.cons
          (Xlt_locates_Fill _ _ 0 L.sizeof_dce_codec_get_version env.alloc NULL _ NULL
            (List.mem_singleton.mpr rfl))
          (List.Forall₂.cons
            (Xlt_locates_Fill _ _ 0 L.sizeof_dce_codec_get_version env.alloc NULL _ NULL
              (List.mem_singleton.mpr rfl)) List.Forall₂.nil))
  · intro codec inBufs outBufs inArgs outArgs codec_id env c hc
    unfold process _ASSERT at hc
    dsimp only at hc
    split_ifs at hc <;> simp [called] at hc
    all_goals
      subst hc
      unfold Xlts_locate
      rw [process_fxnCtx_xltAry]
      apply List.rel_append
      · apply Forall₂_map_range
        intro i
        exact Xlt_locates_Fill _ mem INBUFS_INDEX (process_sz L codec_id INBUFS_INDEX) inBufs
          NULL _ NULL (by rw [process_fxnCtx_params]; simp)
      · apply Forall₂_map_range
        intro i
        exact Xlt_locates_Fill _ mem OUTBUFS_INDEX (process_sz L codec_id OUTBUFS_INDEX) outBufs
          NULL _ NULL (by rw [process_fxnCtx_params]; simp)

/-- C10 (witness): the field at address 4136 of a message at 4096 is recovered from base
and offset, and the entry of a `create` call with its message at 4096 locates the
`static_params` field at 4096 + 40. -/
theorem translation_offset_round_trip_witness :
    size_t_ptr_cast (int32_t_cast 4096 + (Fill_MmRpc_fxnCtx_Xlt_Array (Memory.const 0) 0
      (int32_t_cast 4096) (int32_t_cast 4136) NULL).offset) = 4136 ∧
    Xlts_locate
      { fxn_id := dce_rpc_call.DCE_RPC_CODEC_CREATE, num_params := 1, num_xlts := 1
        params := [(0, MmRpc_Param.Ptr 52 4096 NULL)]
        xltAry := [(0, { index := 0, offset := 40, base := 8192, handle := NULL })] }
      [4136] :=
  ⟨(translation_offset_round_trip Layout.sample (Memory.const 0)
      { MmRpcHandle := 7, count := 1 }).2.1 (Memory.const 0) 0 4096 4136 NULL (by decide),
    (translation_offset_round_trip Layout.sample (Memory.const 0)
      { MmRpcHandle := 7, count := 1 }).2.2.1 9 (some "ivahd_h264dec") 8192
      dce_codec_type.OMAP_DCE_VIDDEC3
      { alloc := 4096, call := { status := 0, fxnRet := 0 }, codec_handle := 11 } _ (by decide)⟩

/-! ## Claims on the result codes of control, get_version and process -/

theorem control_eError (L : Layout) (mem : Memory) (s : Session) (codec : Ptr) (id : Int)
    (dynParams status : Ptr) (codec_id : dce_codec_type) (env : control_env) :
    (control L mem s codec id dynParams status codec_id env).eError =
      if codec = NULL ∨ dynParams = NULL ∨ status = NULL then DCE_EINVALID_INPUT
      else if env.alloc = NULL then DCE_EOUT_OF_MEMORY
      else if env.call.status = DCE_EOK then env.result
      else DCE_EIPC_CALL_FAIL := by
  unfold control _ASSERT
  dsimp only
  split_ifs <;> first | rfl | (exfalso; simp_all)

theorem get_version_eError (L : Layout) (mem : Memory) (s : Session) (codec : Ptr)
    (dynParams status : Ptr) (codec_id : dce_codec_type) (env : control_env) :
    (get_version L mem s codec dynParams status codec_id env).eError =
      if codec = NULL ∨ dynParams = NULL ∨ status = NULL then DCE_EINVALID_INPUT
      else if env.alloc = NULL then DCE_EOUT_OF_MEMORY
      else if env.call.status = DCE_EOK then env.result
      else DCE_EIPC_CALL_FAIL := by
  unfold get_version _ASSERT
  dsimp only
  split_ifs <;> first | rfl | (exfalso; simp_all)

theorem control_frees_allocated (L : Layout) (mem : Memory) (s : Session) (codec : Ptr)
    (id : Int) (dynParams status : Ptr) (codec_id : dce_codec_type) (env : control_env) :
    ∀ a ∈ allocated (control L mem s codec id dynParams status codec_id env).log,
      freed (control L mem s codec id dynParams status codec_id env).log = [a] := by
  unfold control _ASSERT
  dsimp only
  split_ifs <;> simp [allocated, freed]

theorem get_version_frees_allocated (L : Layout) (mem : Memory) (s : Session) (codec : Ptr)
    (dynParams status : Ptr) (codec_id : dce_codec_type) (env : control_env) :
    ∀ a ∈ allocated (get_version L mem s codec dynParams status codec_id env).log,
      freed (get_version L mem s codec dynParams status codec_id env).log = [a] := by
  unfold get_version _ASSERT
  dsimp only
  split_ifs <;> simp [allocated, freed]

/-- C11: for every input, `control` and `get_version` return the invalid-input code when
`codec`, `dynParams` or `status` is null; otherwise the out-of-memory code when the message
allocation fails; otherwise the channel-call-failed code when `MmRpc_call` fails; and
otherwise the value of the `result` field of the message struct as the call left it. In
every case a message that was allocated is the one address passed to `memplugin_free`
before the return. -/
theorem control_get_version_return (L : Layout) (mem : Memory) (s : Session) (codec : Ptr)
    (id : Int) (dynParams status : Ptr) (codec_id : dce_codec_type) (env : control_env) :
    (codec = NULL ∨ dynParams = NULL ∨ status = NULL →
      (control L mem s codec id dynParams status codec_id env).eError = DCE_EINVALID_INPUT ∧
      (get_version L mem s codec dynParams status codec_id env).eError = DCE_EINVALID_INPUT) ∧
    (codec ≠ NULL → dynParams ≠ NULL → status ≠ NULL → env.alloc = NULL →
      (control L mem s codec id dynParams status codec_id env).eError = DCE_EOUT_OF_MEMORY ∧
      (get_version L mem s codec dynParams status codec_id env).eError = DCE_EOUT_OF_MEMORY) ∧
    (codec ≠ NULL → dynParams ≠ NULL → status ≠ NULL → env.alloc ≠ NULL →
      env.call.status ≠ DCE_EOK →
      (control L mem s codec id dynParams status codec_id env).eError = DCE_EIPC_CALL_FAIL ∧
      (get_version L mem s codec dynParams status codec_id env).eError = DCE_EIPC_CALL_FAIL) ∧
    (codec ≠ NULL → dynParams ≠ NULL → status ≠ NULL → env.alloc ≠ NULL →
      env.call.status = DCE_EOK →
      (control L mem s codec id dynParams status codec_id env).eError = env.result ∧
      (get_version L mem s codec dynParams status codec_id env).eError = env.result) ∧
    (∀ a ∈ allocated (control L mem s codec id dynParams status codec_id env).log,
      freed (control L mem s codec id dynParams status codec_id env).log = [a]) ∧
    (∀ a ∈ allocated (get_version L mem s codec dynParams status codec_id env).log,
      freed (get_version L mem s codec dynParams status codec_id env).log = [a]) := by
  refine ⟨?_, ?_, ?_, ?_, control_frees_allocated L mem s codec id dynParams status codec_id env,
    get_version_frees_allocated L mem s codec dynParams status codec_id env⟩
  · intro h
    rw [control_eError, get_version_eError, if_pos h]
    exact ⟨rfl, rfl⟩
  · intro h1 h2 h3 h4
    have hn : ¬ (codec = NULL ∨ dynParams = NULL ∨ status = NULL) := by
      rintro (h | h | h)
      · exact h1 h
      · exact h2 h
      · exact h3 h
    rw [control_eError, get_version_eError, if_neg hn, if_pos h4]
    exact ⟨rfl, rfl⟩
  · intro h1 h2 h3 h4 h5
    have hn : ¬ (codec = NULL ∨ dynParams = NULL ∨ status = NULL) := by
      rintro (h | h | h)
      · exact h1 h
      · exact h2 h
      · exact h3 h
    rw [control_eError, get_version_eError, if_neg hn, if_neg h4, if_neg h5]
    exact ⟨rfl, rfl⟩
  · intro h1 h2 h3 h4 h5
    have hn : ¬ (codec = NULL ∨ dynParams = NULL ∨ status = NULL) := by
      rintro (h | h | h)
      · exact h1 h
      · exact h2 h
      · exact h3 h
    rw [control_eError, get_version_eError, if_neg hn, if_neg h4, if_pos h5]
    exact ⟨rfl, rfl⟩

/-- C11 (witness): a decoder instance 11 with `dynParams` at 8192 and `status` at 12288: a
null `status`, a failed allocation, a failed call, and a call that leaves result 3; in
the last case the message at 4096 is freed. -/
theorem control_get_version_return_witness :
    (control Layout.sample (Memory.const 0) { MmRpcHandle := 7, count := 1 } 11 1 8192 NULL
      dce_codec_type.OMAP_DCE_VIDDEC3
      { alloc := 4096, call := { status := 0, fxnRet := 0 }, result := 3 }).eError
      = DCE_EINVALID_INPUT ∧
    (get_version Layout.sample (Memory.const 0) { MmRpcHandle := 7, count := 1 } 11 8192 12288
      dce_codec_type.OMAP_DCE_VIDDEC3
      { alloc := NULL, call := { status := 0, fxnRet := 0 }, result := 3 }).eError
      = DCE_EOUT_OF_MEMORY ∧
    (control Layout.sample (Memory.const 0) { MmRpcHandle := 7, count := 1 } 11 1 8192 12288
      dce_codec_type.OMAP_DCE_VIDDEC3
      { alloc := 4096, call := { status := -1, fxnRet := 0 }, result := 3 }).eError
      = DCE_EIPC_CALL_FAIL ∧
    (get_version Layout.sample (Memory.const 0) { MmRpcHandle := 7, count := 1 } 11 8192 12288
      dce_codec_type.OMAP_DCE_VIDDEC3
      { alloc := 4096, call := { status := 0, fxnRet := 0 }, result := 3 }).eError = 3 ∧
    freed (control Layout.sample (Memory.const 0) { MmRpcHandle := 7, count := 1 } 11 1 8192 12288
      dce_codec_type.OMAP_DCE_VIDDEC3
      { alloc := 4096, call := { status := 0, fxnRet := 0 }, result := 3 }).log = [4096] :=
  ⟨((control_get_version_return Layout.sample (Memory.const 0) { MmRpcHandle := 7, count := 1 }
      11 1 8192 NULL dce_codec_type.OMAP_DCE_VIDDEC3
      { alloc := 4096, call := { status := 0, fxnRet := 0 }, result := 3 }).1
      (Or.inr (Or.inr rfl))).1,
    ((control_get_version_return Layout.sample (Memory.const 0) { MmRpcHandle := 7, count := 1 }
      11 1 8192 12288 dce_codec_type.OMAP_DCE_VIDDEC3
      { alloc := NULL, call := { status := 0, fxnRet := 0 }, result := 3 }).2.1
      (by decide) (by decide) (by decide) rfl).2,
    ((control_get_version_return Layout.sample (Memory.const 0) { MmRpcHandle := 7, count := 1 }
      11 1 8192 12288 dce_codec_type.OMAP_DCE_VIDDEC3
      { alloc := 4096, call := { status := -1, fxnRet := 0 }, result := 3 }).2.2.1
      (by decide) (by decide) (by decide) (by decide) (by decide)).1,
    ((control_get_version_return Layout.sample (Memory.const 0) { MmRpcHandle := 7, count := 1 }
      11 1 8192 12288 dce_codec_type.OMAP_DCE_VIDDEC3
      { alloc := 4096, call := { status := 0, fxnRet := 0 }, result := 3 }).2.2.2.1
      (by decide) (by decide) (by decide) (by decide) rfl).2,
    (control_get_version_return Layout.sample (Memory.const 0) { MmRpcHandle := 7, count := 1 }
      11 1 8192 12288 dce_codec_type.OMAP_DCE_VIDDEC3
      { alloc := 4096, call := { status := 0, fxnRet := 0 }, result := 3 }).2.2.2.2.1 4096
      (by decide)⟩

theorem size_t_ptr_cast_int32_t_cast (p : Nat) (hp : p < 4294967296) :
    size_t_ptr_cast (int32_t_cast p) = p := by
  unfold size_t_ptr_cast unsigned_int_cast int32_t_cast
  have h : (((p : Int) + 2147483648) % 4294967296 - 2147483648) % 4294967296 = (p : Int) := by
    omega
  rw [h]
  exact Int.toNat_ofNat p

theorem MmRpc_OFFSET_field (msg off : Nat) (h : msg + off < 4294967296) :
    MmRpc_OFFSET (int32_t_cast msg) (int32_t_cast (msg + off)) = (off : Int) := by
  unfold MmRpc_OFFSET unsigned_int_cast int32_t_cast
  push_cast
  omega

theorem Fill_Xlt_field (mem : Memory) (msg off v : Nat) (h : msg + off < 4294967296)
    (hread : mem.ptr (msg + off) = v) :
    Fill_MmRpc_fxnCtx_Xlt_Array mem 0 (int32_t_cast msg) (int32_t_cast (msg + off)) NULL =
      { index := 0, offset := (off : Int), base := v, handle := NULL } := by
  unfold Fill_MmRpc_fxnCtx_Xlt_Array
  rw [MmRpc_OFFSET_field msg off h, size_t_ptr_cast_int32_t_cast (msg + off) h, hread]

theorem dce_deinit_called (s : Session) : called (dce_deinit s).log = [] := by
  unfold dce_deinit
  dsimp only
  split_ifs <;> rfl

/-- C13: on a 32-bit target (the field addresses fit in 32 bits), with distinct offsets for
distinct fields and a message that does not overlap the caller's status struct, every
valid call of a bundled-message shape sends one package with the message struct as its
only argument (slot 0) and exactly these translation entries, all with argument index 0
and offsets measured from the message struct: `create` one entry, for `static_params`,
capturing `params`; `control` two, for `dyn_params` and `status`, capturing `dynParams` and
`status`; `get_version` three, for `dyn_params`, `status` and `version`, capturing
`dynParams`, `status` and the version-buffer pointer read from the status struct;
`delete`, `Engine_open` and `Engine_close` none. -/
theorem bundled_translation_entries (L : Layout) (mem : Memory) (s : Session) :
    (∀ engine name params codec_id env, name.isSome = true → engine ≠ NULL → params ≠ NULL →
      env.alloc ≠ NULL → env.alloc + L.create_static_params < 4294967296 →
      ∃ c, called (create L mem s engine name params codec_id env).log = [c] ∧
        c.num_xlts = 1 ∧
        c.params = [(0, MmRpc_Param.Ptr L.sizeof_dce_codec_create env.alloc NULL)] ∧
        c.xltAry = [(0, { index := 0, offset := L.create_static_params, base := params,
                          handle := NULL })]) ∧
    (∀ codec id dynParams status codec_id env, codec ≠ NULL → dynParams ≠ NULL →
      status ≠ NULL → env.alloc ≠ NULL →
      env.alloc + L.control_dyn_params < 4294967296 →
      env.alloc + L.control_status < 4294967296 →
      L.control_dyn_params ≠ L.control_status →
      ∃ c, called (control L mem s codec id dynParams status codec_id env).log = [c] ∧
        c.num_xlts = 2 ∧
        c.params = [(0, MmRpc_Param.Ptr L.sizeof_dce_codec_control env.alloc NULL)] ∧
        c.xltAry =
          [(0, { index := 0, offset := L.control_dyn_params, base := dynParams, handle := NULL }),
           (1, { index := 0, offset := L.control_status, base := status, handle := NULL })]) ∧
    (∀ codec dynParams status codec_id env, codec ≠ NULL → dynParams ≠ NULL →
      status ≠ NULL → env.alloc ≠ NULL →
      env.alloc + L.get_version_dyn_params < 4294967296 →
      env.alloc + L.get_version_status < 4294967296 →
      env.alloc + L.get_version_version < 4294967296 →
      L.get_version_dyn_params ≠ L.get_version_status →
      L.get_version_dyn_params ≠ L.get_version_version →
      L.get_version_status ≠ L.get_version_version →
      status + L.IVIDDEC3_Status_data_buf ≠ env.alloc + L.get_version_codec_handle →
      status + L.IVIDDEC3_Status_data_buf ≠ env.alloc + L.get_version_dyn_params →
      status + L.IVIDDEC3_Status_data_buf ≠ env.alloc + L.get_version_status →
      ∃ c, called (get_version L mem s codec dynParams status codec_id env).log = [c] ∧
        c.num_xlts = 3 ∧
        c.params = [(0, MmRpc_Param.Ptr L.sizeof_dce_codec_get_version env.alloc NULL)] ∧
        c.xltAry =
          [(0, { index := 0, offset := L.get_version_dyn_params, base := dynParams,
                 handle := NULL }),
           (1, { index := 0, offset := L.get_version_status, base := status, handle := NULL }),
           (2, { index := 0, offset := L.get_version_version,
                 base := mem.ptr (status + L.IVIDDEC3_Status_data_buf), handle := NULL })]) ∧
    (∀ codec codec_id env, codec ≠ NULL → env.alloc ≠ NULL →
      ∃ c, called (delete L s codec codec_id env).log = [c] ∧ c.num_xlts = 0 ∧
        c.params = [(0, MmRpc_Param.Ptr L.sizeof_dce_codec_delete env.alloc NULL)] ∧
        c.xltAry = []) ∧
    (∀ name env, name.isSome = true → (dce_init s env.create).eError = DCE_EOK →
      env.alloc ≠ NULL →
      ∃ c, called (Engine_open L s name env).log = [c] ∧ c.num_xlts = 0 ∧
        c.params = [(0, MmRpc_Param.Ptr L.sizeof_dce_engine_open env.alloc NULL)] ∧
        c.xltAry = []) ∧
    (∀ engine env, engine ≠ NULL → env.alloc ≠ NULL →
      ∃ c, called (Engine_close L s engine env).log = [c] ∧ c.num_xlts = 0 ∧
        c.params = [(0, MmRpc_Param.Ptr L.sizeof_dce_engine_close env.alloc NULL)] ∧
        c.xltAry = []) := by
  refine ⟨?_, ?_, ?_, ?_, ?_, ?_⟩
  · intro engine name params codec_id env hname hengine hparams halloc h32
    unfold create _ASSERT _ASSERT_AND_EXECUTE
    dsimp only
    rw [if_pos hname, if_pos hengine, if_pos hparams, if_pos halloc]
    split_ifs
    all_goals
      refine ⟨_, rfl, rfl, rfl, ?_⟩
      show [(0, Fill_MmRpc_fxnCtx_Xlt_Array _ 0 _ _ NULL)] = _
      rw [Fill_Xlt_field _ _ _ params h32 (by simp [Memory.store])]
  · intro codec id dynParams status codec_id env hcodec hdyn hstatus halloc h32a h32b hne
    unfold control _ASSERT
    dsimp only
    rw [if_pos hcodec, if_pos hdyn, if_pos hstatus, if_pos halloc]
    split_ifs
    all_goals
      refine ⟨_, rfl, rfl, rfl, ?_⟩
      show [(0, Fill_MmRpc_fxnCtx_Xlt_Array _ 0 _ _ NULL),
        (1, Fill_MmRpc_fxnCtx_Xlt_Array _ 0 _ _ NULL)] = _
      rw [Fill_Xlt_field _ _ L.control_dyn_params dynParams h32a (by simp [Memory.store, hne]),
        Fill_Xlt_field _ _ L.control_status status h32b (by simp [Memory.store])]
  · intro codec dynParams status codec_id env hcodec hdyn hstatus halloc h32a h32b h32c
      hne1 hne2 hne3 hd1 hd2 hd3
    unfold get_version _ASSERT
    dsimp only
    rw [if_pos hcodec, if_pos hdyn, if_pos hstatus, if_pos halloc]
    split_ifs
    all_goals
      refine ⟨_, rfl, rfl, rfl, ?_⟩
      show [(0, Fill_MmRpc_fxnCtx_Xlt_Array _ 0 _ _ NULL),
        (1, Fill_MmRpc_fxnCtx_Xlt_Array _ 0 _ _ NULL),
        (2, Fill_MmRpc_fxnCtx_Xlt_Array _ 0 _ _ NULL)] = _
      rw [Fill_Xlt_field _ _ L.get_version_dyn_params dynParams h32a
          (by simp [Memory.store, hne1, hne2]),
        Fill_Xlt_field _ _ L.get_version_status status h32b
          (by simp [Memory.store, hne3]),
        Fill_Xlt_field _ _ L.get_version_version
          (mem.ptr (status + L.IVIDDEC3_Status_data_buf)) h32c
          (by cases codec_id <;> simp [Memory.store, hd1, hd2, hd3])]
  · intro codec codec_id env hcodec halloc
    unfold delete _ASSERT
    dsimp only
    rw [if_pos hcodec, if_pos halloc]
    split_ifs <;> exact ⟨_, rfl, rfl, rfl, rfl⟩
  · intro name env hname hinit halloc
    unfold Engine_open _ASSERT _ASSERT_AND_EXECUTE
    dsimp only
    rw [if_pos hname, if_pos hinit, if_pos halloc]
    split_ifs
    all_goals
      refine ⟨(Fill_MmRpc_fxnCtx dce_rpc_call.DCE_RPC_ENGINE_OPEN 1 0).setParam 0
        (Fill_MmRpc_fxnCtx_Ptr_Params L.sizeof_dce_engine_open env.alloc NULL),
        ?_, rfl, rfl, rfl⟩
      simp only [called_append, dce_init_called]
      rfl
  · intro engine env hengine halloc
    unfold Engine_close _ASSERT
    dsimp only
    rw [if_pos hengine, if_pos halloc]
    split_ifs
    all_goals
      refine ⟨(Fill_MmRpc_fxnCtx dce_rpc_call.DCE_RPC_ENGINE_CLOSE 1 0).setParam 0
        (Fill_MmRpc_fxnCtx_Ptr_Params L.sizeof_dce_engine_close env.alloc NULL),
        ?_, rfl, rfl, rfl⟩
      simp only [called_append, dce_deinit_called]
      rfl

/-- C13 (witness): a `control` call on decoder instance 11 with its message at 4096,
`dynParams` at 8192 and `status` at 12288. -/
theorem bundled_translation_entries_witness :
    ∃ c, called (control Layout.sample (Memory.const 0) { MmRpcHandle := 7, count := 1 } 11 1
        8192 12288 dce_codec_type.OMAP_DCE_VIDDEC3
        { alloc := 4096, call := { status := 0, fxnRet := 0 }, result := 0 }).log = [c] ∧
      c.num_xlts = 2 ∧
      c.params = [(0, MmRpc_Param.Ptr 28 4096 NULL)] ∧
      c.xltAry = [(0, { index := 0, offset := 12, base := 8192, handle := NULL }),
                  (1, { index := 0, offset := 16, base := 12288, handle := NULL })] :=
  (bundled_translation_entries Layout.sample (Memory.const 0)
    { MmRpcHandle := 7, count := 1 }).2.1 11 1 8192 12288 dce_codec_type.OMAP_DCE_VIDDEC3
    { alloc := 4096, call := { status := 0, fxnRet := 0 }, result := 0 }
    (by decide) (by decide) (by decide) (by decide) (by decide) (by decide) (by decide)

/-! ## Claims on the channel handle used by Engine_open -/

theorem call_handles_append (l1 l2 : List Effect) :
    call_handles (l1 ++ l2) = call_handles l1 ++ call_handles l2 := by
  induction l1 with
  | nil => rfl
  | cons e l ih => cases e <;> simp [call_handles, ih]

theorem dce_init_call_handles (s : Session) (o : MmRpc_create_outcome) :
    call_handles (dce_init s o).log = [] := by
  by_cases h : s.count + 1 = 1
  · by_cases hst : o.status = DCE_EOK
    · rw [dce_init_of_created s o h hst]; rfl
    · rw [dce_init_of_failed s o h hst]; rfl
  · rw [dce_init_of_ne s o h]; rfl

theorem dce_deinit_call_handles (s : Session) : call_handles (dce_deinit s).log = [] := by
  unfold dce_deinit
  dsimp only
  split_ifs <;> rfl

theorem Engine_open_call_handles (L : Layout) (s : Session) (name : Option String)
    (env : Engine_open_env) :
    call_handles (Engine_open L s name env).log = [] ∨
    ((dce_init s env.create).eError = DCE_EOK ∧
      call_handles (Engine_open L s name env).log = [(dce_init s env.create).session.MmRpcHandle])
    := by
  unfold Engine_open _ASSERT _ASSERT_AND_EXECUTE
  dsimp only
  split_ifs with h1 h2 h3 h4
  · right
    refine ⟨h2, ?_⟩
    simp only [call_handles_append, dce_init_call_handles]
    rfl
  · right
    refine ⟨h2, ?_⟩
    simp only [call_handles_append, dce_init_call_handles]
    rfl
  · left
    simp only [call_handles_append, dce_init_call_handles]
    rfl
  · left
    simp only [call_handles_append, dce_init_call_handles, dce_deinit_call_handles]
    rfl
  · left
    rfl

theorem dce_init_handle_of_nonneg (s : Session) (o : MmRpc_create_outcome) (ho : o.wf)
    (hs : s.inv) (hcount : 0 ≤ s.count) (hok : (dce_init s o).eError = DCE_EOK) :
    (dce_init s o).session.MmRpcHandle ≠ NULL := by
  have hinv := dce_init_inv s o ho hs
  have hc := dce_init_count s o
  rw [if_pos hok] at hc
  exact hinv.mpr (by omega)

/-- C14 (counterexample): after one `Engine_close` from the initial session count is -1; in
that reachable state `dce_init` finds `count != 1` after its increment, returns `DCE_EOK`
without creating the channel, and `Engine_open` makes its `MmRpc_call` with a null handle. -/
theorem Engine_open_calls_with_null_handle :
    ¬ (∀ h ∈ call_handles (Engine_open Layout.sample
          (run Layout.sample Session.initial
            [Call.Engine_close 9 { alloc := 4096, call := { status := 0, fxnRet := 0 } }])
          (some "ivahd_vidsvr") Engine_open_env.good).log, h ≠ NULL) ∧
    ¬ ((dce_init (run Layout.sample Session.initial
          [Call.Engine_close 9 { alloc := 4096, call := { status := 0, fxnRet := 0 } }])
          Engine_open_env.good.create).eError = DCE_EOK →
        (dce_init (run Layout.sample Session.initial
          [Call.Engine_close 9 { alloc := 4096, call := { status := 0, fxnRet := 0 } }])
          Engine_open_env.good.create).session.MmRpcHandle ≠ NULL) := by
  refine ⟨by decide, by decide⟩

/-- C14 (amended): in every session state reached from the initial one by a sequence of
`Engine_open` and `Engine_close` calls (arbitrary outcomes, a successful `MmRpc_create`
delivering a non-null handle) in which count is not negative, whenever `Engine_open`
reaches its `MmRpc_call` the channel handle it passes is non-null, and a successful
`dce_init` leaves a non-null channel handle. -/
theorem Engine_open_call_handle (L : Layout) (cs : List Call) (hwf : ∀ c ∈ cs, c.wf)
    (name : Option String) (env : Engine_open_env) (henv : env.create.wf)
    (hcount : 0 ≤ (run L Session.initial cs).count) :
    (∀ h ∈ call_handles (Engine_open L (run L Session.initial cs) name env).log, h ≠ NULL) ∧
    ((dce_init (run L Session.initial cs) env.create).eError = DCE_EOK →
      (dce_init (run L Session.initial cs) env.create).session.MmRpcHandle ≠ NULL) := by
  have hinv := run_inv L cs Session.initial hwf Session.initial_inv
  refine ⟨?_, dce_init_handle_of_nonneg _ env.create henv hinv hcount⟩
  intro h hh
  rcases Engine_open_call_handles L (run L Session.initial cs) name env with hl | ⟨hok, hl⟩
  · rw [hl] at hh
    simp at hh
  · rw [hl] at hh
    rw [List.mem_singleton.mp hh]
    exact dce_init_handle_of_nonneg _ env.create henv hinv hcount hok

/-- C14 (witness): the second `Engine_open` of a process, after a first one that created
the channel with handle 7, calls with handle 7. -/
theorem Engine_open_call_handle_witness :
    (∀ h ∈ call_handles (Engine_open Layout.sample
        (run Layout.sample Session.initial
          [Call.Engine_open (some "ivahd_vidsvr") Engine_open_env.good])
        (some "ivahd_vidsvr") Engine_open_env.good).log, h ≠ NULL) ∧
    call_handles (Engine_open Layout.sample
        (run Layout.sample Session.initial
          [Call.Engine_open (some "ivahd_vidsvr") Engine_open_env.good])
        (some "ivahd_vidsvr") Engine_open_env.good).log = [7] :=
  ⟨(Engine_open_call_handle Layout.sample
      [Call.Engine_open (some "ivahd_vidsvr") Engine_open_env.good]
      (by simp [Call.wf, MmRpc_create_outcome.wf, Engine_open_env.good, NULL])
      (some "ivahd_vidsvr") Engine_open_env.good
      (by simp [MmRpc_create_outcome.wf, Engine_open_env.good, NULL]) (by decide)).1,
    by decide⟩

/-! ## Claims on the capacity of the translation array of process -/

/-- Whatever the capacity, `process` accepts descriptors whose counts exceed it and then
writes an entry at the array index `MAX_TOTAl_BUF`: it makes no check of the counts. -/
theorem process_no_capacity_check (L : Layout) (mem : Memory)
    (codec inBufs outBufs inArgs outArgs : Ptr) (codec_id : dce_codec_type)
    (hsum : L.MAX_TOTAl_BUF < (process_numInBufs L mem inBufs codec_id).toNat +
      (process_numOutBufs L mem outBufs codec_id).toNat) :
    ∃ ie ∈ (process_fxnCtx L mem codec inBufs outBufs inArgs outArgs codec_id).xltAry,
      ie.1 = L.MAX_TOTAl_BUF := by
  rw [process_fxnCtx_xltAry]
  simp only [List.mem_append, List.mem_map, List.mem_range]
  by_cases h : L.MAX_TOTAl_BUF < (process_numInBufs L mem inBufs codec_id).toNat
  · exact ⟨_, Or.inl ⟨L.MAX_TOTAl_BUF, h, rfl⟩, rfl⟩
  · refine ⟨_, Or.inr ⟨L.MAX_TOTAl_BUF - (process_numInBufs L mem inBufs codec_id).toNat,
      by omega, rfl⟩, ?_⟩
    show (process_numInBufs L mem inBufs codec_id).toNat +
      (L.MAX_TOTAl_BUF - (process_numInBufs L mem inBufs codec_id).toNat) = L.MAX_TOTAl_BUF
    omega

/-! ## Claims on the translation entries and the package of process -/

/-- A sample memory: every pointer word is `NULL`, the integer at address `a` is `n` and
every other integer is `m`. -/
def Memory.int_at (a : Ptr) (n m : Int) : Memory :=
  { ptr := fun _ => NULL, int := fun x => if x = a then n else m }

theorem MmRpc_OFFSET_mod (b off : Nat) :
    MmRpc_OFFSET (int32_t_cast b) (int32_t_cast (b + off)) = (off : Int) % 4294967296 := by
  unfold MmRpc_OFFSET unsigned_int_cast int32_t_cast
  push_cast
  omega

theorem size_t_ptr_cast_int32_t_cast_mod (p : Nat) :
    size_t_ptr_cast (int32_t_cast p) = p % 4294967296 := by
  unfold size_t_ptr_cast unsigned_int_cast int32_t_cast
  have h : (((p : Int) + 2147483648) % 4294967296 - 2147483648) % 4294967296 =
      ((p % 4294967296 : Nat) : Int) := by
    push_cast
    omega
  rw [h]
  exact Int.toNat_ofNat _

theorem Fill_Xlt_located (mem : Memory) (index : Int) (b off : Nat) :
    Fill_MmRpc_fxnCtx_Xlt_Array mem index (int32_t_cast b) (int32_t_cast (b + off)) NULL =
      { index := index, offset := (off : Int) % 4294967296
        base := mem.ptr ((b + off) % 4294967296), handle := NULL } := by
  unfold Fill_MmRpc_fxnCtx_Xlt_Array
  rw [MmRpc_OFFSET_mod b off, size_t_ptr_cast_int32_t_cast_mod (b + off)]

theorem process_in_bounds_of_le (L : Layout) (mem : Memory) (s : Session)
    (codec inBufs outBufs inArgs outArgs : Ptr) (codec_id : dce_codec_type) (env : process_env)
    (hsum : (process_numInBufs L mem inBufs codec_id).toNat +
      (process_numOutBufs L mem outBufs codec_id).toNat ≤ L.MAX_TOTAl_BUF) :
    (process L mem s codec inBufs outBufs inArgs outArgs codec_id env).in_bounds = true := by
  have hb : process_xltAry_in_bounds L
      (process_fxnCtx L mem codec inBufs outBufs inArgs outArgs codec_id) = true := by
    unfold process_xltAry_in_bounds
    rw [List.all_eq_true]
    intro ie hie
    rw [process_fxnCtx_xltAry] at hie
    simp only [List.mem_append, List.mem_map, List.mem_range] at hie
    rcases hie with ⟨i, hi, rfl⟩ | ⟨i, hi, rfl⟩
    · exact decide_eq_true (by show i < L.MAX_TOTAl_BUF; omega)
    · exact decide_eq_true (by
        show (process_numInBufs L mem inBufs codec_id).toNat + i < L.MAX_TOTAl_BUF
        omega)
  unfold process _ASSERT
  dsimp only
  split_ifs <;> first | rfl | exact hb

/-- C9 (counterexample): a decoder call whose input descriptor holds `numBufs = -1` and
whose output descriptor holds `numBufs = 2` stays inside the array, declares
`num_xlts = 1` and fills two entries: the number filled is not the number declared. And a
decoder call whose descriptors hold 3 buffers each writes past the 4 elements of the
array, so that what it sends is undefined. -/
theorem process_entries_not_as_declared :
    (process Layout.sample (Memory.int_at 4096 (-1) 2) { MmRpcHandle := 7, count := 1 }
      11 4096 8192 12288 16384 dce_codec_type.OMAP_DCE_VIDDEC3
      { call := { status := 0, fxnRet := 0 } }).in_bounds = true ∧
    ¬ (∀ c ∈ called (process Layout.sample (Memory.int_at 4096 (-1) 2)
          { MmRpcHandle := 7, count := 1 } 11 4096 8192 12288 16384
          dce_codec_type.OMAP_DCE_VIDDEC3 { call := { status := 0, fxnRet := 0 } }).log,
        (c.xltAry.length : Int) = c.num_xlts) ∧
    ¬ ((process Layout.sample (Memory.const 3) { MmRpcHandle := 7, count := 1 }
      11 4096 8192 12288 16384 dce_codec_type.OMAP_DCE_VIDDEC3
      { call := { status := 0, fxnRet := 0 } }).in_bounds = true) := by
  refine ⟨by decide, by decide, by decide⟩

/-- C9 (amended): for either family and non-null arguments, when the slot counts `nIn`
(`numBufs` for the decoder, `numPlanes` for the encoder) and `nOut` (`numBufs` of the
output descriptor) are not negative and add up to at most `MAX_TOTAl_BUF`, `process` stays
inside its array and sends one package, which declares `num_xlts = nIn + nOut` and has
exactly `nIn + nOut` translation entries, entry `i` at array index `i`: entries
`0 .. nIn-1` carry argument index 1 (`INBUFS_INDEX`), the offset from `inBufs` of the `buf`
field of input slot `i` (`descs[i].buf` of the `XDM2_BufDesc` for the decoder,
`planeDesc[i].buf` of the `IVIDEO2_BufDesc` for the encoder) and the pointer stored at that
field; entries `nIn .. nIn+nOut-1` carry argument index 2 (`OUTBUFS_INDEX`), the offset
from `outBufs` of `descs[i-nIn].buf` and the pointer stored there. Offsets and addresses
are those of the 32-bit integers the code casts them to (taken modulo 2^32). -/
theorem process_translation_entries (L : Layout) (mem : Memory) (s : Session)
    (codec inBufs outBufs inArgs outArgs : Ptr) (codec_id : dce_codec_type) (env : process_env)
    (nIn nOut : Nat)
    (hcodec : codec ≠ NULL) (hinBufs : inBufs ≠ NULL) (houtBufs : outBufs ≠ NULL)
    (hinArgs : inArgs ≠ NULL) (houtArgs : outArgs ≠ NULL)
    (hIn : (match codec_id with
      | dce_codec_type.OMAP_DCE_VIDDEC3 => mem.int (inBufs + L.XDM2_BufDesc_numBufs)
      | dce_codec_type.OMAP_DCE_VIDENC2 => mem.int (inBufs + L.IVIDEO2_BufDesc_numPlanes))
      = (nIn : Int))
    (hOut : mem.int (outBufs + L.XDM2_BufDesc_numBufs) = (nOut : Int))
    (hcap : nIn + nOut ≤ L.MAX_TOTAl_BUF) :
    (process L mem s codec inBufs outBufs inArgs outArgs codec_id env).in_bounds = true ∧
    ∃ c, called (process L mem s codec inBufs outBufs inArgs outArgs codec_id env).log = [c] ∧
      c.num_xlts = (nIn : Int) + (nOut : Int) ∧
      c.xltAry.length = nIn + nOut ∧
      (∀ i, i < nIn → c.xltAry[i]? = some (i,
        { index := 1
          offset := (((match codec_id with
            | dce_codec_type.OMAP_DCE_VIDDEC3 => L.XDM2_BufDesc_descs
            | dce_codec_type.OMAP_DCE_VIDENC2 => L.IVIDEO2_BufDesc_planeDesc) +
            i * L.sizeof_XDM2_SingleBufDesc + L.XDM2_SingleBufDesc_buf : Nat) : Int) % 4294967296
          base := mem.ptr ((inBufs + ((match codec_id with
            | dce_codec_type.OMAP_DCE_VIDDEC3 => L.XDM2_BufDesc_descs
            | dce_codec_type.OMAP_DCE_VIDENC2 => L.IVIDEO2_BufDesc_planeDesc) +
            i * L.sizeof_XDM2_SingleBufDesc + L.XDM2_SingleBufDesc_buf)) % 4294967296)
          handle := NULL })) ∧
      (∀ i, i < nOut → c.xltAry[nIn + i]? = some (nIn + i,
        { index := 2
          offset := ((L.XDM2_BufDesc_descs + i * L.sizeof_XDM2_SingleBufDesc +
            L.XDM2_SingleBufDesc_buf : Nat) : Int) % 4294967296
          base := mem.ptr ((outBufs + (L.XDM2_BufDesc_descs + i * L.sizeof_XDM2_SingleBufDesc +
            L.XDM2_SingleBufDesc_buf)) % 4294967296)
          handle := NULL })) := by
  cases codec_id
  · have hIn2 : process_numInBufs L mem inBufs dce_codec_type.OMAP_DCE_VIDENC2 = (nIn : Int) := hIn
    have hOut2 : process_numOutBufs L mem outBufs dce_codec_type.OMAP_DCE_VIDENC2 = (nOut : Int) := hOut
    refine ⟨process_in_bounds_of_le L mem s codec inBufs outBufs inArgs outArgs _ env
        (by rw [hIn2, hOut2]; simpa using hcap),
      _, process_called L mem s codec inBufs outBufs inArgs outArgs _ env hcodec hinBufs
        houtBufs hinArgs houtArgs, ?_, ?_, ?_, ?_⟩
    · show process_numInBufs L mem inBufs _ + process_numOutBufs L mem outBufs _ = _
      rw [hIn2, hOut2]
    · rw [process_fxnCtx_xltAry, hIn2, hOut2]
      simp
    · intro i hi
      rw [process_fxnCtx_xltAry, hIn2, hOut2]
      rw [List.getElem?_append_left (by simpa using hi)]
      have hfill := Fill_Xlt_located mem INBUFS_INDEX inBufs
        (L.IVIDEO2_BufDesc_planeDesc + i * L.sizeof_XDM2_SingleBufDesc + L.XDM2_SingleBufDesc_buf)
      simp only [List.getElem?_map, List.getElem?_range hi, Int.toNat_ofNat, Option.map_some',
        inBufs_slot_buf, XDM2_BufDesc_descs_buf, IVIDEO2_BufDesc_planeDesc_buf,
        Nat.add_assoc] at hfill ⊢
      rw [hfill]
      rfl
    · intro i hi
      rw [process_fxnCtx_xltAry, hIn2, hOut2]
      rw [List.getElem?_append_right (by simp)]
      have hfill := Fill_Xlt_located mem OUTBUFS_INDEX outBufs
        (L.XDM2_BufDesc_descs + i * L.sizeof_XDM2_SingleBufDesc + L.XDM2_SingleBufDesc_buf)
      simp only [List.length_map, List.length_range, Int.toNat_ofNat, Nat.add_sub_cancel_left,
        List.getElem?_map, List.getElem?_range hi, Option.map_some',
        XDM2_BufDesc_descs_buf, Nat.add_assoc] at hfill ⊢
      rw [hfill]
      rfl
  · have hIn2 : process_numInBufs L mem inBufs dce_codec_type.OMAP_DCE_VIDDEC3 = (nIn : Int) := hIn
    have hOut2 : process_numOutBufs L mem outBufs dce_codec_type.OMAP_DCE_VIDDEC3 = (nOut : Int) := hOut
    refine ⟨process_in_bounds_of_le L mem s codec inBufs outBufs inArgs outArgs _ env
        (by rw [hIn2, hOut2]; simpa using hcap),
      _, process_called L mem s codec inBufs outBufs inArgs outArgs _ env hcodec hinBufs
        houtBufs hinArgs houtArgs, ?_, ?_, ?_, ?_⟩
    · show process_numInBufs L mem inBufs _ + process_numOutBufs L mem outBufs _ = _
      rw [hIn2, hOut2]
    · rw [process_fxnCtx_xltAry, hIn2, hOut2]
      simp
    · intro i hi
      rw [process_fxnCtx_xltAry, hIn2, hOut2]
      rw [List.getElem?_append_left (by simpa using hi)]
      have hfill := Fill_Xlt_located mem INBUFS_INDEX inBufs
        (L.XDM2_BufDesc_descs + i * L.sizeof_XDM2_SingleBufDesc + L.XDM2_SingleBufDesc_buf)
      simp only [List.getElem?_map, List.getElem?_range hi, Int.toNat_ofNat, Option.map_some',
        inBufs_slot_buf, XDM2_BufDesc_descs_buf, IVIDEO2_BufDesc_planeDesc_buf,
        Nat.add_assoc] at hfill ⊢
      rw [hfill]
      rfl
    · intro i hi
      rw [process_fxnCtx_xltAry, hIn2, hOut2]
      rw [List.getElem?_append_right (by simp)]
      have hfill := Fill_Xlt_located mem OUTBUFS_INDEX outBufs
        (L.XDM2_BufDesc_descs + i * L.sizeof_XDM2_SingleBufDesc + L.XDM2_SingleBufDesc_buf)
      simp only [List.length_map, List.length_range, Int.toNat_ofNat, Nat.add_sub_cancel_left,
        List.getElem?_map, List.getElem?_range hi, Option.map_some',
        XDM2_BufDesc_descs_buf, Nat.add_assoc] at hfill ⊢
      rw [hfill]
      rfl

/-- C9 (witness): a decoder call whose descriptors at 4096 and 8192 hold 2 buffers each,
with capacity 4: four entries are declared, entry 1 has argument index 1 and the offset 24
of `descs[1].buf`, entry 2 has argument index 2 and the offset 4 of `descs[0].buf`. -/
theorem process_translation_entries_witness :
    (process Layout.sample (Memory.const 2) { MmRpcHandle := 7, count := 1 }
      11 4096 8192 12288 16384 dce_codec_type.OMAP_DCE_VIDDEC3
      { call := { status := 0, fxnRet := 0 } }).in_bounds = true ∧
    ∃ c, called (process Layout.sample (Memory.const 2) { MmRpcHandle := 7, count := 1 }
        11 4096 8192 12288 16384 dce_codec_type.OMAP_DCE_VIDDEC3
        { call := { status := 0, fxnRet := 0 } }).log = [c] ∧
      c.num_xlts = ((2 : Nat) : Int) + ((2 : Nat) : Int) ∧ c.xltAry.length = 2 + 2 ∧
      c.xltAry[1]? = some (1, { index := 1, offset := 24, base := NULL, handle := NULL }) ∧
      c.xltAry[2]? = some (2, { index := 2, offset := 4, base := NULL, handle := NULL }) :=
  match process_translation_entries Layout.sample (Memory.const 2)
      { MmRpcHandle := 7, count := 1 } 11 4096 8192 12288 16384 dce_codec_type.OMAP_DCE_VIDDEC3
      { call := { status := 0, fxnRet := 0 } } 2 2
      (by decide) (by decide) (by decide) (by decide) (by decide) rfl rfl (by decide) with
  | ⟨hb, c, h1, h2, h3, h4, h5⟩ =>
    ⟨hb, c, h1, h2, h3, h4 1 (by decide), h5 0 (by decide)⟩

end Libdce
